import Mathlib

/-!
Verification development for the multi-provider AI query orchestration core
of the `ai-model-compare` repository.

The Python source under `src/ai_compare/` is embedded shallowly:

* `token_manager.py`  — pure string/arithmetic code, embedded directly.
* `models.py`         — each adapter's `get_response` fallback loop is embedded
  with the external completion call abstracted as an oracle function
  `model → prompt → Except String String` (exception message or response text).
* `model_discovery.py` — the cache and the retry/timeout/fallback logic are
  embedded with the live `models.list` call abstracted as an oracle; wall-clock
  time is a `Nat` parameter (seconds), and an attempt whose oracle-reported
  runtime exceeds the `asyncio.wait_for` timeout yields a `TimeoutError`.
  Each discovery function additionally reports how many live-resolution
  attempts it performed (instrumentation of the external calls; `0` for the
  providers whose code performs none).
* `compare.py`        — `ask_all` / `_safe_ask` / the consolidation stage.
  `asyncio.gather` over deterministic per-provider tasks preserves task order
  and every task is independent, so the concurrent fan-out is embedded as an
  order-preserving map.  A Python function that may raise is embedded as
  `Except String α`; Python `None` flowing where a string is expected is
  embedded as `Option String`.

Machine integers do not overflow in any of this code (all counts are small
naturals), so `Nat` is used throughout.  The only floating-point arithmetic in
the source is `int(words / 0.75)` and `int(x * 0.75)`; for every natural
number below 2^50 these equal `4 * words / 3` and `3 * x / 4` exactly (0.75 is
a dyadic rational and the quotients stay far from integer crossings), which is
how they are embedded.
-/

/-! ## Python string primitives -/

/-- Python regex `\w` (ASCII range, as exercised by this code base):
letters, digits or underscore. -/
def isWordChar (c : Char) : Bool := c.isAlphanum || c == '_'

/-- ASCII lower-casing of one character (Python `str.lower` on the ASCII
identifiers this code handles). -/
def charLower (c : Char) : Char :=
  if 'A' ≤ c && c ≤ 'Z' then Char.ofNat (c.toNat + 32) else c

/-- ASCII upper-casing of one character (Python `str.upper`). -/
def charUpper (c : Char) : Char :=
  if 'a' ≤ c && c ≤ 'z' then Char.ofNat (c.toNat - 32) else c

/-- Python `s.lower()`. -/
def pyLower (s : String) : String := String.mk (s.data.map charLower)

/-- Python `s.upper()`. -/
def pyUpper (s : String) : String := String.mk (s.data.map charUpper)

/-- Python `\s` / `str.split()` / `str.strip()` whitespace characters. -/
def isPySpace (c : Char) : Bool :=
  c == ' ' || c == '\t' || c == '\n' || c == '\r' || c == '\x0b' || c == '\x0c'

/-- Number of maximal runs of word characters, i.e. the length of
Python `re.findall(r'\b\w+\b', text)`.  Second argument: whether the
previous character was a word character. -/
def countWordsAux : List Char → Bool → Nat
  | [], _ => 0
  | c :: rest, inWord =>
    if isWordChar c then
      (if inWord then 0 else 1) + countWordsAux rest true
    else
      countWordsAux rest false

/-- `len(re.findall(r'\b\w+\b', text))` from `ApproximateTokenCounter.count_tokens`. -/
def countWords (s : String) : Nat := countWordsAux s.data false

/-- `ApproximateTokenCounter.count_tokens`: `int(words / 0.75)`,
which equals `4 * words / 3` in `Nat` (exact for all realistic sizes). -/
def count_tokens (s : String) : Nat := 4 * countWords s / 3

/-- Does `pat` occur at the head of `l`? (used for Python `in` on strings). -/
def leadsWith : List Char → List Char → Bool
  | [], _ => true
  | _ :: _, [] => false
  | a :: as, b :: bs => a == b && leadsWith as bs

/-- Does `pat` occur anywhere in `l`? -/
def hasSub : List Char → List Char → Bool
  | pat, [] => pat.isEmpty
  | pat, c :: t => leadsWith pat (c :: t) || hasSub pat t

/-- Python `needle in hay` for strings. -/
def strContains (hay needle : String) : Bool := hasSub needle.data hay.data

/-- Python `s.startswith(pre)`. -/
def pyStarts (s pre : String) : Bool := leadsWith pre.data s.data

/-- Python `s.endswith(suf)`. -/
def pyEnds (s suf : String) : Bool := leadsWith suf.data.reverse s.data.reverse

/-- Python `len(s)` (code points). -/
def pyLen (s : String) : Nat := s.data.length

/-- Python `s[:n]` for `n ≥ 0`. -/
def pyTake (s : String) (n : Nat) : String := String.mk (s.data.take n)

/-- Python `str.split()` (no argument): split on whitespace runs, dropping
empty pieces.  Second argument: the reversed current chunk. -/
def splitWsAux : List Char → List Char → List String
  | [], acc => if acc.isEmpty then [] else [String.mk acc.reverse]
  | c :: rest, acc =>
    if isPySpace c then
      if acc.isEmpty then splitWsAux rest []
      else String.mk acc.reverse :: splitWsAux rest []
    else splitWsAux rest (c :: acc)

/-- Python `text.split()`. -/
def pySplit (s : String) : List String := splitWsAux s.data []

/-- Python `str.strip()`. -/
def pyStrip (s : String) : String :=
  String.mk (((s.data.dropWhile isPySpace).reverse.dropWhile isPySpace).reverse)

/-- `sep.join(parts)` assembled on character lists (linear, faithful to the
resulting string). -/
def pyJoinAux (sep : List Char) : List (List Char) → List Char
  | [] => []
  | [x] => x
  | x :: y :: rest => x ++ sep ++ pyJoinAux sep (y :: rest)

/-- Python `sep.join(parts)`. -/
def pyJoin (sep : String) (parts : List String) : String :=
  String.mk (pyJoinAux sep.data (parts.map (fun p => p.data)))

/-- Is `c` one of the sentence-ending characters `[.!?]`? -/
def isSentEnd : Option Char → Bool
  | some c => c == '.' || c == '!' || c == '?'
  | none => false

/-- Python `re.split(r'(?<=[.!?])\s+', text)`: a maximal whitespace run whose
preceding character is `.`, `!` or `?` separates sentences.  Arguments:
separator-skipping mode, previous character, reversed current chunk, rest. -/
def sentAux : Bool → Option Char → List Char → List Char → List String
  | _, _, acc, [] => [String.mk acc.reverse]
  | true, _, acc, c :: rest =>
    if isPySpace c then sentAux true (some c) acc rest
    else sentAux false (some c) (c :: acc) rest
  | false, prev, acc, c :: rest =>
    if isPySpace c && isSentEnd prev then
      String.mk acc.reverse :: sentAux true (some c) [] rest
    else sentAux false (some c) (c :: acc) rest

/-- `re.split(r'(?<=[.!?])\s+', text)` from `_intelligent_truncate`. -/
def splitSentences (s : String) : List String := sentAux false none [] s.data

/-! ## TokenManager (`token_manager.py`) -/

/-- Assoc-list lookup mirroring Python `dict` key access / `in`
(dicts here are built once with distinct keys, in insertion order). -/
def assocFind {α : Type} (l : List (String × α)) (k : String) : Option α :=
  (l.find? (fun p => p.1 == k)).map (fun p => p.2)

/-- `TokenManager.MODEL_LIMITS`, in insertion order. -/
def MODEL_LIMITS : List (String × List (String × Nat)) :=
  [ ("openai",
      [("gpt-4", 8000), ("gpt-4-turbo", 128000), ("gpt-3.5-turbo", 4000),
       ("default", 4000)]),
    ("anthropic",
      [("claude-3-opus", 200000), ("claude-3-sonnet", 200000),
       ("claude-3-haiku", 200000), ("claude-2", 100000),
       ("default", 100000)]),
    ("google",
      [("gemini-pro", 30000), ("gemini-1.5-pro", 1000000),
       ("default", 30000)]),
    ("meta",
      [("llama-2", 4000), ("llama-3", 8000), ("default", 4000)]),
    ("grok",
      [("grok-1", 8000), ("default", 8000)]) ]

/-- `TokenManager.get_model_limit`.  A `none` or empty model name is falsy in
Python (`if model_name:`), skipping the match attempts. -/
def get_model_limit (provider : String) (modelName : Option String) : Nat :=
  let providerLimits := (assocFind MODEL_LIMITS (pyLower provider)).getD []
  let defaultLimit := (assocFind providerLimits "default").getD 4000
  match modelName with
  | none => defaultLimit
  | some name =>
    if name == "" then defaultLimit
    else
      match assocFind providerLimits name with
      | some l => l
      | none =>
        match providerLimits.find?
            (fun p => strContains (pyLower name) p.1 || strContains p.1 (pyLower name)) with
        | some p => p.2
        | none => defaultLimit

/-- The greedy middle-sentence packing loop of `_intelligent_truncate`
(`middle_text` accumulation; breaks at the first sentence that no longer
fits the remaining budget). -/
def packMiddle : Nat → String → List String → String
  | _, acc, [] => acc
  | remaining, acc, s :: rest =>
    if count_tokens s ≤ remaining then
      packMiddle (remaining - count_tokens s) (acc ++ (s ++ " ")) rest
    else acc

/-- `TokenManager._intelligent_truncate`.  `int(x * 0.75)` is `3 * x / 4`,
`// 2` is `/ 2`.  Callers always pass `max_tokens ≥ 4000` (every limit in
`MODEL_LIMITS` and the default are at least 4000), so the `Nat` subtraction
`maxTokens - 50` agrees with Python's integer subtraction. -/
def intelligent_truncate (text : String) (maxTokens : Nat) : String :=
  let currentTokens := count_tokens text
  if currentTokens ≤ maxTokens then text
  else
    let availableTokens := maxTokens - 50
    let sentences := splitSentences text
    if sentences.length ≤ 2 then
      let words := pySplit text
      let targetWords := 3 * availableTokens / 4
      let truncated := pyJoin " " (words.take targetWords)
      truncated ++ "... [Content truncated to fit model limits]"
    else
      let firstPart := sentences.headD ""
      let lastPart := sentences.getLastD ""
      let firstTokens := count_tokens firstPart
      let lastTokens := count_tokens lastPart
      if availableTokens < firstTokens + lastTokens then
        let firstPart2 :=
          if availableTokens / 2 < firstTokens then
            pyJoin " " ((pySplit firstPart).take (3 * (availableTokens / 2) / 4)) ++ "..."
          else firstPart
        let lastPart2 :=
          if availableTokens / 2 < lastTokens then
            let ws := pySplit lastPart
            "..." ++ pyJoin " " (ws.drop (ws.length - 3 * (availableTokens / 2) / 4))
          else lastPart
        firstPart2 ++ " [Middle content truncated] " ++ lastPart2
      else
        let remainingTokens := availableTokens - firstTokens - lastTokens
        let middleSentences := (sentences.drop 1).dropLast
        if 100 < remainingTokens ∧ middleSentences ≠ [] then
          let middleText := packMiddle remainingTokens "" middleSentences
          if pyStrip middleText ≠ "" then
            firstPart ++ " " ++ pyStrip middleText ++ " [Some content truncated] " ++ lastPart
          else
            firstPart ++ " [Middle content truncated to fit model limits] " ++ lastPart
        else
          firstPart ++ " [Middle content truncated to fit model limits] " ++ lastPart

/-- `TokenManager.validate_and_truncate`. -/
def validate_and_truncate (text provider : String) (modelName : Option String) :
    String × Bool :=
  let limit := get_model_limit provider modelName
  let currentTokens := count_tokens text
  if currentTokens ≤ limit then (text, false)
  else (intelligent_truncate text limit, true)

/-! ## Provider adapters (`models.py`)

Each adapter's network call is abstracted as a generation oracle
`model → prompt → Except String String` (`.error msg` = the call raised an
exception with message `msg`; `.ok text` = it returned `text`).  The `get_response`
methods return `Except String (Option String)`: `.ok none` embeds Python's
implicit `return None` when the candidate loop body never runs. -/

/-- The shared fallback loop of `ChatGPTModel.get_response`,
`ClaudeModel.get_response` and `GeminiModel.get_response` (their loop bodies
are textually identical up to the network call, which is the oracle here):
`for model in models: try: return call(model) except: if model == models[-1]:
raise; continue`.  `last` is `models[-1]` of the original list; note the
source compares by value, not by position. -/
def tryModels (gen : String → Except String String) (last : String) :
    List String → Except String (Option String)
  | [] => Except.ok none
  | m :: rest =>
    match gen m with
    | Except.ok text => Except.ok (some text)
    | Except.error e => if m == last then Except.error e else tryModels gen last rest

/-- `ChatGPTModel.get_response` given the discovery-resolved candidate list.
On an empty list the `for` body never runs and Python returns `None`
(`models[-1]` is only evaluated inside the `except`, after the body ran). -/
def chatgpt_get_response (gen : String → String → Except String String)
    (models : List String) (prompt : String) : Except String (Option String) :=
  match models.getLast? with
  | none => Except.ok none
  | some last => tryModels (fun m => gen m prompt) last models

/-- `ClaudeModel.get_response` (the `max_tokens=4000` request parameter is
part of the oracle call). -/
def claude_get_response (gen : String → String → Except String String)
    (models : List String) (prompt : String) : Except String (Option String) :=
  match models.getLast? with
  | none => Except.ok none
  | some last => tryModels (fun m => gen m prompt) last models

/-- `GeminiModel.get_response`. -/
def gemini_get_response (gen : String → String → Except String String)
    (models : List String) (prompt : String) : Except String (Option String) :=
  match models.getLast? with
  | none => Except.ok none
  | some last => tryModels (fun m => gen m prompt) last models

/-- The JSON payload shape a Meta/Grok completion endpoint may return:
an optional `choices` array (modelled by the list of
`choices[i]["message"]["content"]` strings) and an optional flat `response`
field.  (`models.py` lines 143-149 / 186-192 dispatch on these two fields.) -/
structure ChatPayload where
  choices : Option (List String)
  response : Option String

/-- A crude printable form of a payload, standing in for Python's `{data}`
interpolation in the `Unexpected response format` message. -/
def payloadRepr (d : ChatPayload) : String :=
  (match d.choices with
   | some cs => "choices=" ++ pyJoin "," cs
   | none => "choices=missing")
  ++ ";" ++
  (match d.response with
   | some r => "response=" ++ r
   | none => "response=missing")

/-- The response-shape dispatch shared by `MetaModel.get_response` and
`GrokModel.get_response`: `if "choices" in data and len(data["choices"]) > 0:
return data["choices"][0]["message"]["content"] elif "response" in data:
return data["response"] else: raise`. -/
def parsePayload (d : ChatPayload) : Except String String :=
  match d.choices with
  | some (c :: _) => Except.ok c
  | _ =>
    match d.response with
    | some r => Except.ok r
    | none => Except.error ("Unexpected response format: " ++ payloadRepr d)

/-- `full_url = f"{api_url}/chat/completions" if not
api_url.endswith('/chat/completions') else api_url`. -/
def fullChatUrl (apiUrl : String) : String :=
  if pyEnds apiUrl "/chat/completions" then apiUrl else apiUrl ++ "/chat/completions"

/-- One `try`-body of the Meta/Grok nested loop: POST to the url (the network
oracle `net`, which may raise) and dispatch on the payload shape. -/
def chatAttempt (net : String → String → String → Except String ChatPayload)
    (apiUrl model prompt : String) : Except String String :=
  match net (fullChatUrl apiUrl) model prompt with
  | Except.error e => Except.error e
  | Except.ok d => parsePayload d

/-- Inner (`for model in models`) loop of `MetaModel.get_response` /
`GrokModel.get_response` for a fixed endpoint.  Result: `none` if the loop
fell through to the next endpoint, `some (.ok t)` for an early `return`,
`some (.error e)` for a `raise` (which happens exactly when the failing pair
compares equal to `(endpoints[-1], models[-1])`). -/
def chatInner (attempt : String → String → Except String String)
    (apiUrl lastUrl lastModel : String) : List String → Option (Except String String)
  | [] => none
  | m :: rest =>
    match attempt apiUrl m with
    | Except.ok t => some (Except.ok t)
    | Except.error e =>
      if apiUrl == lastUrl && m == lastModel then some (Except.error e)
      else chatInner attempt apiUrl lastUrl lastModel rest

/-- Outer (`for api_url in endpoints`) loop of `MetaModel.get_response` /
`GrokModel.get_response`. -/
def chatOuter (attempt : String → String → Except String String)
    (lastUrl lastModel : String) (models : List String) :
    List String → Except String (Option String)
  | [] => Except.ok none
  | u :: rest =>
    match chatInner attempt u lastUrl lastModel models with
    | some (Except.ok t) => Except.ok (some t)
    | some (Except.error e) => Except.error e
    | none => chatOuter attempt lastUrl lastModel models rest

/-- `MetaModel.get_response` given the discovery-resolved config; `net` is the
`aiohttp` POST + JSON decode.  If either list is empty the loops never raise
and the function returns Python `None`. -/
def meta_get_response (net : String → String → String → Except String ChatPayload)
    (endpoints models : List String) (prompt : String) : Except String (Option String) :=
  match endpoints.getLast?, models.getLast? with
  | some lastUrl, some lastModel =>
    chatOuter (fun u m => chatAttempt net u m prompt) lastUrl lastModel models endpoints
  | _, _ => Except.ok none

/-- `GrokModel.get_response` (textually the same loop as `MetaModel`). -/
def grok_get_response (net : String → String → String → Except String ChatPayload)
    (endpoints models : List String) (prompt : String) : Except String (Option String) :=
  match endpoints.getLast?, models.getLast? with
  | some lastUrl, some lastModel =>
    chatOuter (fun u m => chatAttempt net u m prompt) lastUrl lastModel models endpoints
  | _, _ => Except.ok none

/-! ## Discovery service (`model_discovery.py`)

Wall-clock time is a `Nat` of seconds.  The live OpenAI catalog call is the
oracle `LiveOracle`: per attempt index it reports a runtime (for the
`asyncio.wait_for` timeout check) and either an exception or the raw model-id
list.  Each `get_*` function returns `(data, new cache, live-attempt count)`;
the count instruments how many times the external catalog endpoint was
actually called. -/

/-- One cache slot: `{'data': ..., 'timestamp': ...}`. -/
inductive DiscData : Type
  | models (ms : List String)
  | config (endpoints ms : List String)
deriving DecidableEq

structure CacheEntry where
  data : DiscData
  timestamp : Nat
deriving DecidableEq

/-- `ModelDiscovery.cache` (a dict keyed by provider cache key). -/
structure Cache where
  entries : List (String × CacheEntry)
deriving DecidableEq

def emptyCache : Cache := ⟨[]⟩

def cacheLookup (c : Cache) (k : String) : Option CacheEntry :=
  (c.entries.find? (fun p => p.1 == k)).map (fun p => p.2)

/-- `ModelDiscovery._is_cache_valid` (entries always carry a timestamp here,
matching `_set_cache_data`). -/
def isCacheValid (c : Cache) (k : String) (now : Nat) : Bool :=
  match cacheLookup c k with
  | none => false
  | some e => now - e.timestamp < 3600

/-- `ModelDiscovery._get_cached_data`. -/
def getCachedData (c : Cache) (k : String) (now : Nat) : Option DiscData :=
  if isCacheValid c k now then (cacheLookup c k).map (fun e => e.data) else none

/-- `ModelDiscovery._set_cache_data`: one dict assignment storing data and
timestamp together. -/
def setCacheData (c : Cache) (k : String) (d : DiscData) (now : Nat) : Cache :=
  ⟨(k, ⟨d, now⟩) :: c.entries.filter (fun p => !(p.1 == k))⟩

/-- The live OpenAI `models.list` call, per attempt index. -/
structure LiveOracle where
  runtime : Nat → Nat
  api : Nat → Except String (List String)

/-- Hardcoded fallback of `get_openai_models`. -/
def fallbackOpenaiModels : List String := ["gpt-4o-mini", "gpt-4", "gpt-3.5-turbo"]

/-- `model_priority` inside `get_openai_models.discover_models`. -/
def modelPriority (name : String) : Nat :=
  if strContains name "gpt-4" then (if strContains name "turbo" then 1 else 2)
  else if strContains name "gpt-3.5" then (if strContains name "16k" then 4 else 3)
  else 5

/-- Stable insertion by ascending key (Python `list.sort(key=...)` is stable). -/
def insertByKey (k : String → Nat) (a : String) : List String → List String
  | [] => [a]
  | b :: t => if k a ≤ k b then a :: b :: t else b :: insertByKey k a t

/-- Stable sort by key, as `chat_models.sort(key=model_priority)`. -/
def sortByKey (k : String → Nat) : List String → List String
  | [] => []
  | a :: t => insertByKey k a (sortByKey k t)

/-- The `discover_models` filter: GPT chat models only. -/
def filterChatModels (ids : List String) : List String :=
  ids.filter (fun i => pyStarts i "gpt-" && !(strContains (pyLower i) "instruct"))

/-- Outcome of one `asyncio.wait_for(discover_models(), timeout)` attempt:
a `TimeoutError` if the oracle's runtime exceeds the timeout, otherwise the
catalog result filtered, sorted and defaulted exactly as `discover_models`
does (`return chat_models if chat_models else fallback_models`). -/
def openaiAttempt (live : LiveOracle) (timeout i : Nat) : Except String (List String) :=
  if timeout < live.runtime i then Except.error "TimeoutError"
  else
    match live.api i with
    | Except.error e => Except.error e
    | Except.ok ids =>
      let cm := sortByKey modelPriority (filterChatModels ids)
      Except.ok (if cm.isEmpty then fallbackOpenaiModels else cm)

/-- `ModelDiscovery._retry_with_fallback`: `for attempt in range(max_retries+1):
try: return await wait_for(op(), timeout) except: if attempt == max_retries:
return fallback; sleep(1)`.  Arguments: remaining retries after the current
attempt, current attempt index.  Also returns the number of attempts made. -/
def retry_with_fallback (op : Nat → Except String (List String))
    (fallbackData : List String) : Nat → Nat → List String × Nat
  | 0, i =>
    ((match op i with
      | Except.ok v => v
      | Except.error _ => fallbackData), i + 1)
  | rem + 1, i =>
    match op i with
    | Except.ok v => (v, i + 1)
    | Except.error _ => retry_with_fallback op fallbackData rem (i + 1)

/-- `ModelDiscovery.get_openai_models` (cache check, then
`_retry_with_fallback(discover_models, fallback_models, timeout=8)` with the
default `max_retries=2`, then one atomic cache store).  Under the `"openai"`
key only `DiscData.models` snapshots are ever stored, so the wildcard
cache-hit arm is unreachable in every reachable cache state. -/
def get_openai_models (live : LiveOracle) (c : Cache) (now : Nat) :
    List String × Cache × Nat :=
  match getCachedData c "openai" now with
  | some (DiscData.models ms) => (ms, c, 0)
  | _ =>
    let r := retry_with_fallback (fun i => openaiAttempt live 8 i) fallbackOpenaiModels 2 0
    (r.1, setCacheData c "openai" (DiscData.models r.1) now, r.2)

/-- Hardcoded list of `get_anthropic_models`. -/
def knownAnthropicModels : List String :=
  ["claude-3-5-sonnet-20241022", "claude-3-opus-20240229",
   "claude-3-sonnet-20240229", "claude-3-haiku-20240307"]

/-- `ModelDiscovery.get_anthropic_models`: cache check, then the static list
is stored and returned — no live call is made (attempt count 0). -/
def get_anthropic_models (c : Cache) (now : Nat) : List String × Cache × Nat :=
  match getCachedData c "anthropic" now with
  | some (DiscData.models ms) => (ms, c, 0)
  | _ => (knownAnthropicModels,
          setCacheData c "anthropic" (DiscData.models knownAnthropicModels) now, 0)

/-- Hardcoded list of `get_google_models`. -/
def knownGoogleModels : List String :=
  ["gemini-1.5-pro", "gemini-1.5-flash", "gemini-pro", "gemini-pro-vision"]

/-- `ModelDiscovery.get_google_models`: static list, no live call. -/
def get_google_models (c : Cache) (now : Nat) : List String × Cache × Nat :=
  match getCachedData c "google" now with
  | some (DiscData.models ms) => (ms, c, 0)
  | _ => (knownGoogleModels,
          setCacheData c "google" (DiscData.models knownGoogleModels) now, 0)

/-- Fallback config of `get_meta_config`. -/
def metaFallbackEndpoints : List String := ["https://api.together.xyz/v1"]

def metaFallbackModels : List String :=
  ["meta-llama/Llama-2-70b-chat-hf", "meta-llama/Llama-2-13b-chat-hf",
   "meta-llama/Llama-2-7b-chat-hf"]

/-- `ModelDiscovery.get_meta_config`: static config, no live call. -/
def get_meta_config (c : Cache) (now : Nat) :
    (List String × List String) × Cache × Nat :=
  match getCachedData c "meta" now with
  | some (DiscData.config es ms) => ((es, ms), c, 0)
  | _ => ((metaFallbackEndpoints, metaFallbackModels),
          setCacheData c "meta" (DiscData.config metaFallbackEndpoints metaFallbackModels) now,
          0)

/-- Fallback config of `get_grok_config`. -/
def grokFallbackEndpoints : List String := ["https://api.x.ai/v1"]

def grokFallbackModels : List String := ["grok-beta", "grok-2", "grok-1"]

/-- The cache key `f"grok_{hash(api_key)}"`; Python's in-process `hash` is
deterministic, modelled injectively by the key itself. -/
def grokCacheKey (apiKey : String) : String := "grok_" ++ apiKey

/-- `ModelDiscovery.get_grok_config`: static config, no live call. -/
def get_grok_config (apiKey : String) (c : Cache) (now : Nat) :
    (List String × List String) × Cache × Nat :=
  match getCachedData c (grokCacheKey apiKey) now with
  | some (DiscData.config es ms) => ((es, ms), c, 0)
  | _ => ((grokFallbackEndpoints, grokFallbackModels),
          setCacheData c (grokCacheKey apiKey)
            (DiscData.config grokFallbackEndpoints grokFallbackModels) now,
          0)

/-! ## Orchestrator (`compare.py`) -/

/-- The per-provider generation oracles: all external completion calls of one
run (deterministic functions of their arguments, as observed by the
orchestrator). -/
structure GenOracle where
  chatgpt : String → String → Except String String
  claude : String → String → Except String String
  gemini : String → String → Except String String
  meta : String → String → String → Except String ChatPayload
  grok : String → String → String → Except String ChatPayload

/-- One initialized provider adapter together with its discovery-resolved
candidate lists (`_initialize_available_models` pre-caches these via
`_get_models` / `_get_config`). -/
inductive ModelAdapter : Type
  | chatgpt (models : List String)
  | claude (models : List String)
  | gemini (models : List String)
  | meta (endpoints models : List String)
  | grok (endpoints models : List String)
deriving DecidableEq

/-- Dispatch `model.get_response(prompt)`. -/
def adapterResponse (g : GenOracle) : ModelAdapter → String → Except String (Option String)
  | ModelAdapter.chatgpt ms, p => chatgpt_get_response g.chatgpt ms p
  | ModelAdapter.claude ms, p => claude_get_response g.claude ms p
  | ModelAdapter.gemini ms, p => gemini_get_response g.gemini ms p
  | ModelAdapter.meta es ms, p => meta_get_response g.meta es ms p
  | ModelAdapter.grok es ms, p => grok_get_response g.grok es ms p

/-- The environment variables backing `get_api_key` for the five providers. -/
structure ProviderEnv where
  openaiKey : Option String
  anthropicKey : Option String
  googleKey : Option String
  metaKey : Option String
  grokKey : Option String

/-- `get_api_key`: `key if key and key.strip() else None` (an unset, empty or
whitespace-only variable yields `None`, which makes the adapter constructor
raise `ValueError`). -/
def get_api_key (v : Option String) : Option String :=
  match v with
  | none => none
  | some k => if k == "" || pyStrip k == "" then none else some k

/-- `AICompare._model_providers` lookup: `self._model_providers.get(model_name,
'openai')` with the `provider_map` of `_initialize_available_models`. -/
def providerOf (name : String) : String :=
  if name == "chatgpt" then "openai"
  else if name == "claude" then "anthropic"
  else if name == "gemini" then "google"
  else if name == "meta" then "meta"
  else if name == "grok" then "grok"
  else "openai"

/-- `AICompare._initialize_available_models`: construct the five adapters in
dict order, skipping those whose constructor raises `ValueError` (missing
key), pre-resolving each one's candidate list through the shared discovery
cache (threaded left to right; the process starts with an empty cache and
`now = 0`). -/
def initModels (env : ProviderEnv) (live : LiveOracle) :
    List (String × ModelAdapter) × Cache :=
  let s1 : List (String × ModelAdapter) × Cache :=
    if (get_api_key env.openaiKey).isSome then
      (let r := get_openai_models live emptyCache 0
       ([("chatgpt", ModelAdapter.chatgpt r.1)], r.2.1))
    else ([], emptyCache)
  let s2 : List (String × ModelAdapter) × Cache :=
    if (get_api_key env.anthropicKey).isSome then
      (let r := get_anthropic_models s1.2 0
       (s1.1 ++ [("claude", ModelAdapter.claude r.1)], r.2.1))
    else s1
  let s3 : List (String × ModelAdapter) × Cache :=
    if (get_api_key env.googleKey).isSome then
      (let r := get_google_models s2.2 0
       (s2.1 ++ [("gemini", ModelAdapter.gemini r.1)], r.2.1))
    else s2
  let s4 : List (String × ModelAdapter) × Cache :=
    if (get_api_key env.metaKey).isSome then
      (let r := get_meta_config s3.2 0
       (s3.1 ++ [("meta", ModelAdapter.meta r.1.1 r.1.2)], r.2.1))
    else s3
  match get_api_key env.grokKey with
  | some k =>
    let r := get_grok_config k s4.2 0
    (s4.1 ++ [("grok", ModelAdapter.grok r.1.1 r.1.2)], r.2.1)
  | none => s4

/-- The provider ids `get_available_models` would report (= the keys of
`self.models` in construction order). -/
def activeNames (env : ProviderEnv) : List String :=
  (if (get_api_key env.openaiKey).isSome then ["chatgpt"] else []) ++
  (if (get_api_key env.anthropicKey).isSome then ["claude"] else []) ++
  (if (get_api_key env.googleKey).isSome then ["gemini"] else []) ++
  (if (get_api_key env.metaKey).isSome then ["meta"] else []) ++
  (if (get_api_key env.grokKey).isSome then ["grok"] else [])

/-- Python `f"...{x}"` of a value that is a string or `None`. -/
def pyOptStr : Option String → String
  | some s => s
  | none => "None"

/-- The prompt `_safe_ask` actually dispatches: `validate_and_truncate`
output, plus the visible notice when truncation occurred.  Returns the
processed prompt and the `was_truncated` flag. -/
def processedPrompt (name question : String) : String × Bool :=
  let provider := providerOf name
  let vt := validate_and_truncate question provider (some name)
  (if vt.2 then
     vt.1 ++ "\n\n[Note: Input was automatically truncated to fit " ++ provider
          ++ " model limits]"
   else vt.1, vt.2)

/-- `AICompare._safe_ask`: runs token validation, dispatches, catches any
exception as `"Error: <message>"`, and prefixes a truncation notice on
success.  The value is `Option String` because `get_response` may return
Python `None` (and `f"...{response}"` renders that as the string `"None"`). -/
def safe_ask (g : GenOracle) (name : String) (adapter : ModelAdapter)
    (question : String) : String × Option String :=
  let pq := processedPrompt name question
  match adapterResponse g adapter pq.1 with
  | Except.error e => (name, some ("Error: " ++ e))
  | Except.ok r =>
    if pq.2 then
      (name, some ("[Input was truncated for token limits]\n\n" ++ pyOptStr r))
    else (name, r)

/-- The `v.startswith('Error:')` scan over `result.items()` in `ask_all`
line 72: if any value is `None` the attribute access raises (uncaught);
otherwise the string map is recovered. -/
def allSome : List (String × Option String) → Option (List (String × String))
  | [] => some []
  | (n, some v) :: t => (allSome t).map (fun r => (n, v) :: r)
  | (_, none) :: _ => none

/-- `AICompare._format_responses_for_summary`: label and join the non-error
responses. -/
def format_responses_for_summary (responses : List (String × String)) : String :=
  pyJoin "\n\n"
    ((responses.filter (fun p => !(pyStarts p.2 "Error:"))).map
      (fun p => "=== " ++ pyUpper p.1 ++ " ===\n" ++ p.2))

/-- The synthesis prompt of `summarize_responses` (f-string literal). -/
def summaryPrompt (responses : List (String × String)) : String :=
  "Analyze these AI responses and create a clear, comprehensive summary (maximum 4000 characters):\n\n"
  ++ format_responses_for_summary responses
  ++ "\n\nCreate a well-structured summary that:\n• Synthesizes the key insights from all models\n• Highlights areas of consensus and disagreement\n• Provides a balanced, comprehensive answer\n• Uses clear formatting with bullet points or numbered lists where helpful\n• Maintains a similar length and tone as the original responses\n• Keep response under 4000 characters\n\nFocus on creating a unified answer that combines the best elements from each response."

/-- The synthesis prompt of `consolidate_responses` (f-string literal). -/
def consolidatePrompt (responses : List (String × String)) : String :=
  "Based on these multiple AI responses, write a single consolidated answer (maximum 4000 characters):\n\n"
  ++ format_responses_for_summary responses
  ++ "\n\nRequirements:\n• Write as if you\x27re giving the definitive answer to the original question\n• Match the typical length and style of AI responses (2-4 paragraphs)\n• Integrate the best insights from all responses seamlessly\n• Don\x27t mention that this is a summary or consolidation\n• Use natural, conversational tone\n• Include specific details and examples where multiple models agree\n• Present conflicting viewpoints as \"some considerations include...\" or \"alternatively...\"\n• Keep response under 4000 characters\n\nWrite the response as a complete, standalone answer."

/-- The delegate-model selection shared by `summarize_responses` and
`consolidate_responses`: `if not model_name or model_name not in self.models:
model_name = next(iter(self.models))` (`next` on an empty dict raises
`StopIteration`, hence `Option`). -/
def chooseModel (models : List (String × ModelAdapter)) (m : Option String) :
    Option String :=
  match m with
  | some name =>
    if name == "" then (models.head?).map (fun p => p.1)
    else if models.any (fun p => p.1 == name) then some name
    else (models.head?).map (fun p => p.1)
  | none => (models.head?).map (fun p => p.1)

/-- `AICompare.summarize_responses`. -/
def summarize_responses (g : GenOracle) (models : List (String × ModelAdapter))
    (responses : List (String × String)) (m : Option String) :
    Except String (Option String) :=
  match chooseModel models m with
  | none => Except.error "StopIteration"
  | some name =>
    match models.find? (fun p => p.1 == name) with
    | some p => adapterResponse g p.2 (summaryPrompt responses)
    | none => Except.error "KeyError"

/-- `AICompare.consolidate_responses`. -/
def consolidate_responses (g : GenOracle) (models : List (String × ModelAdapter))
    (responses : List (String × String)) (m : Option String) :
    Except String (Option String) :=
  match chooseModel models m with
  | none => Except.error "StopIteration"
  | some name =>
    match models.find? (fun p => p.1 == name) with
    | some p => adapterResponse g p.2 (consolidatePrompt responses)
    | none => Except.error "KeyError"

/-- `summary[:4000] if len(summary) > 4000 else summary`. -/
def cap4000 (s : String) : String := if 4000 < pyLen s then pyTake s 4000 else s

/-- `AICompare.ask_all` over an initialized adapter map: fail fast on an
empty map, fan out (order-preserving, each task isolated by `_safe_ask`),
rebuild the dict, then auto-generate the consolidation entries when more
than one response is a non-`"Error:"` string, swallowing any exception from
that stage.  A `None` response value would crash the `startswith` scan
(uncaught `AttributeError`); if `summary` is a string but `consolidated` is
`None`, line 81 has already inserted `_auto_summary` when line 82 raises. -/
def ask_all (g : GenOracle) (models : List (String × ModelAdapter))
    (question : String) : Except String (List (String × String)) :=
  if models.isEmpty then
    Except.error "No AI models available. Please provide at least one valid API key."
  else
    match allSome (models.map (fun p => safe_ask g p.1 p.2 question)) with
    | none => Except.error "AttributeError"
    | some result =>
      let successful := result.filter (fun p => !(pyStarts p.2 "Error:"))
      if 1 < successful.length then
        match summarize_responses g models successful none,
              consolidate_responses g models successful none with
        | Except.ok s, Except.ok c =>
          match s with
          | none => Except.ok result
          | some s0 =>
            let r1 := result ++ [("_auto_summary", cap4000 s0)]
            match c with
            | none => Except.ok r1
            | some c0 => Except.ok (r1 ++ [("_auto_consolidated", cap4000 c0)])
        | _, _ => Except.ok result
      else Except.ok result

/-- Keys of a result map, in insertion order. -/
def keysOf (r : List (String × String)) : List String := r.map (fun p => p.1)

/-- Dict lookup on a result map. -/
def lookupVal (r : List (String × String)) (k : String) : Option String :=
  (r.find? (fun p => p.1 == k)).map (fun p => p.2)

/-- Non-empty-candidate invariant every discovery-resolved adapter satisfies
(`get_response` can return Python `None` only when it fails). -/
def adapterWF : ModelAdapter → Prop
  | ModelAdapter.chatgpt ms => ms ≠ []
  | ModelAdapter.claude ms => ms ≠ []
  | ModelAdapter.gemini ms => ms ≠ []
  | ModelAdapter.meta es ms => es ≠ [] ∧ ms ≠ []
  | ModelAdapter.grok es ms => es ≠ [] ∧ ms ≠ []

/-- Every list or config stored in the discovery cache is non-empty. -/
def dataWF : DiscData → Prop
  | DiscData.models ms => ms ≠ []
  | DiscData.config es ms => es ≠ [] ∧ ms ≠ []

/-- Cache invariant: all cached snapshots are non-empty. -/
def cacheWF (c : Cache) : Prop := ∀ p ∈ c.entries, dataWF p.2.data

/-! ## Concrete fixtures used by witnesses and counterexamples -/

/-- A live-discovery oracle whose catalog call always raises
(`ConnectionError`); `get_openai_models` then falls back. -/
def live0 : LiveOracle := ⟨fun _ => 0, fun _ => Except.error "ConnectionError"⟩

/-- A live-discovery oracle that always exceeds the 8-second timeout. -/
def liveSlow : LiveOracle := ⟨fun _ => 9, fun _ => Except.ok ["gpt-4"]⟩

/-- Generation oracles where every provider succeeds with a fixed answer. -/
def gAllOk : GenOracle :=
  ⟨fun _ _ => Except.ok "A", fun _ _ => Except.ok "B", fun _ _ => Except.ok "C",
   fun _ _ _ => Except.ok ⟨some ["D"], none⟩, fun _ _ _ => Except.ok ⟨some ["E"], none⟩⟩

/-- Generation oracles where the chatgpt provider fails on the user question
`"Q"` but succeeds on any other prompt (such as the synthesis prompts), while
claude and gemini always succeed. -/
def gFirstFails : GenOracle :=
  ⟨fun _ p => if p == "Q" then Except.error "boom" else Except.ok "SYNTH",
   fun _ _ => Except.ok "A1", fun _ _ => Except.ok "A2",
   fun _ _ _ => Except.ok ⟨some ["D"], none⟩, fun _ _ _ => Except.ok ⟨some ["E"], none⟩⟩

/-- Generation oracles where claude genuinely answers with a text that merely
starts with the literal `Error:`. -/
def gErrorText : GenOracle :=
  ⟨fun _ _ => Except.ok "A", fun _ _ => Except.ok "Error: is what I discuss",
   fun _ _ => Except.ok "C",
   fun _ _ _ => Except.ok ⟨some ["D"], none⟩, fun _ _ _ => Except.ok ⟨some ["E"], none⟩⟩

/-- Generation oracles where claude's call raises and the others succeed. -/
def gClaudeBoom : GenOracle :=
  ⟨fun _ _ => Except.ok "A", fun _ _ => Except.error "boom", fun _ _ => Except.ok "C",
   fun _ _ _ => Except.ok ⟨some ["D"], none⟩, fun _ _ _ => Except.ok ⟨some ["E"], none⟩⟩

/-- All five providers configured with valid credentials. -/
def envAll : ProviderEnv := ⟨some "k1", some "k2", some "k3", some "k4", some "k5"⟩

/-- Only openai and anthropic configured. -/
def envTwo : ProviderEnv := ⟨some "k1", some "k2", none, none, none⟩

/-- openai, anthropic and google configured. -/
def envThree : ProviderEnv := ⟨some "k1", some "k2", some "k3", none, none⟩

/-- No provider configured. -/
def envNone : ProviderEnv := ⟨none, none, none, none, none⟩

/-- 1600 repetitions of `a.a ` — a single "sentence" of 1600 whitespace-words,
each containing two `\w+` runs, so 3200 estimated words and
`count_tokens = 4266 > 4000`. -/
def c4text : String := String.mk (List.flatten (List.replicate 1600 ['a', '.', 'a', ' ']))

/-! ## General lemmas -/

theorem strDataAppend (a b : String) : (a ++ b).data = a.data ++ b.data := rfl

theorem leadsWith_append (pat : List Char) :
    ∀ s t : List Char, leadsWith pat s = true → leadsWith pat (s ++ t) = true := by
  induction pat with
  | nil => intro s t _; simp [leadsWith]
  | cons a as ih =>
    intro s t h
    cases s with
    | nil => simp [leadsWith] at h
    | cons b bs =>
      simp only [List.cons_append, leadsWith, Bool.and_eq_true] at h ⊢
      exact ⟨h.1, ih bs t h.2⟩

theorem hasSub_nil_pat : ∀ l : List Char, hasSub [] l = true := by
  intro l
  cases l with
  | nil => rfl
  | cons c t => simp [hasSub, leadsWith]

theorem hasSub_append_left (pat : List Char) :
    ∀ x y : List Char, hasSub pat x = true → hasSub pat (x ++ y) = true := by
  intro x
  induction x with
  | nil =>
    intro y h
    simp only [hasSub, List.isEmpty_iff] at h
    subst h
    exact hasSub_nil_pat y
  | cons c t ih =>
    intro y h
    simp only [hasSub, Bool.or_eq_true] at h ⊢
    cases h with
    | inl h1 =>
      left
      have := leadsWith_append pat (c :: t) y h1
      simpa using this
    | inr h2 => exact Or.inr (ih y h2)

theorem hasSub_append_right (pat : List Char) :
    ∀ x y : List Char, hasSub pat y = true → hasSub pat (x ++ y) = true := by
  intro x
  induction x with
  | nil => intro y h; simpa using h
  | cons c t ih =>
    intro y h
    simp only [List.cons_append, hasSub, Bool.or_eq_true]
    exact Or.inr (ih y h)

theorem strContains_append_right {b n : String} (a : String)
    (h : strContains b n = true) : strContains (a ++ b) n = true := by
  simp only [strContains, strDataAppend]
  exact hasSub_append_right n.data a.data b.data h

theorem strContains_append_left {a n : String} (b : String)
    (h : strContains a n = true) : strContains (a ++ b) n = true := by
  simp only [strContains, strDataAppend]
  exact hasSub_append_left n.data a.data b.data h

/-- Every exit of `_intelligent_truncate` on an over-limit text embeds the
word `truncated` (inside one of the four bracketed marker literals). -/
theorem intelligent_truncate_marker (text : String) (maxTokens : Nat)
    (h : maxTokens < count_tokens text) :
    strContains (intelligent_truncate text maxTokens) "truncated" = true := by
  have hnot : ¬ (count_tokens text ≤ maxTokens) := by omega
  simp only [intelligent_truncate, hnot, if_false]
  split
  · -- ≤ 2 sentences: "... [Content truncated to fit model limits]" suffix
    apply strContains_append_right
    decide
  · split
    · -- first+last too long: " [Middle content truncated] " in the middle
      apply strContains_append_left
      apply strContains_append_right
      decide
    · split
      · split
        · -- middle packing: " [Some content truncated] "
          apply strContains_append_left
          apply strContains_append_right
          decide
        · apply strContains_append_left
          apply strContains_append_right
          decide
      · apply strContains_append_left
        apply strContains_append_right
        decide

/-! ## Counting lemmas for the repeated text `c4text` -/

theorem cw_chunk (rest : List Char) :
    countWordsAux ('a' :: '.' :: 'a' :: ' ' :: rest) false
      = 2 + countWordsAux rest false := by
  have ha : isWordChar 'a' = true := by decide
  have hd : isWordChar '.' = false := by decide
  have hs : isWordChar ' ' = false := by decide
  simp [countWordsAux, ha, hd, hs]
  omega

theorem cw_chunk3 (rest : List Char) :
    countWordsAux ('a' :: '.' :: 'a' :: rest) false
      = 2 + countWordsAux rest true := by
  have ha : isWordChar 'a' = true := by decide
  have hd : isWordChar '.' = false := by decide
  simp [countWordsAux, ha, hd]
  omega

theorem cw_flatten_rep :
    ∀ n, countWordsAux (List.flatten (List.replicate n ['a', '.', 'a', ' '])) false = 2 * n := by
  intro n
  induction n with
  | zero => simp [countWordsAux]
  | succ k ih =>
    rw [List.replicate_succ]
    have : List.flatten (['a', '.', 'a', ' '] :: List.replicate k ['a', '.', 'a', ' '])
        = 'a' :: '.' :: 'a' :: ' ' :: List.flatten (List.replicate k ['a', '.', 'a', ' ']) := rfl
    rw [this, cw_chunk, ih]
    omega

theorem cw_join_rep :
    ∀ n (tail : List Char),
      countWordsAux (pyJoinAux [' '] (List.replicate (n + 1) ['a', '.', 'a']) ++ tail) false
        = 2 * (n + 1) + countWordsAux tail true := by
  intro n
  induction n with
  | zero =>
    intro tail
    have : pyJoinAux [' '] (List.replicate 1 ['a', '.', 'a']) ++ tail
        = 'a' :: '.' :: 'a' :: tail := rfl
    rw [this, cw_chunk3]
  | succ k ih =>
    intro tail
    have hshape : pyJoinAux [' '] (List.replicate (k + 2) ['a', '.', 'a']) ++ tail
        = 'a' :: '.' :: 'a' :: ' ' ::
            (pyJoinAux [' '] (List.replicate (k + 1) ['a', '.', 'a']) ++ tail) := by
      rw [List.replicate_succ]
      rw [show List.replicate (k + 1) ['a', '.', 'a']
            = ['a', '.', 'a'] :: List.replicate k ['a', '.', 'a'] from List.replicate_succ ..]
      simp [pyJoinAux, List.append_assoc]
    rw [hshape, cw_chunk, ih]
    omega

theorem sent_rep :
    ∀ (n : Nat) (prev : Option Char) (acc : List Char),
      sentAux false prev acc (List.flatten (List.replicate n ['a', '.', 'a', ' ']))
        = [String.mk (acc.reverse ++ List.flatten (List.replicate n ['a', '.', 'a', ' ']))] := by
  intro n
  induction n with
  | zero => intro prev acc; simp [sentAux]
  | succ k ih =>
    intro prev acc
    have hpa : isPySpace 'a' = false := by decide
    have hpd : isPySpace '.' = false := by decide
    have hps : isPySpace ' ' = true := by decide
    have hsa : isSentEnd (some 'a') = false := by decide
    rw [List.replicate_succ]
    have hshape : List.flatten (['a', '.', 'a', ' '] :: List.replicate k ['a', '.', 'a', ' '])
        = 'a' :: '.' :: 'a' :: ' ' :: List.flatten (List.replicate k ['a', '.', 'a', ' ']) := rfl
    rw [hshape]
    simp only [sentAux, hpa, hpd, hps, hsa, Bool.false_and, Bool.true_and, Bool.and_false,
      if_false, Bool.false_eq_true, ite_false]
    rw [ih]
    simp [List.append_assoc]

theorem split_rep :
    ∀ n, splitWsAux (List.flatten (List.replicate n ['a', '.', 'a', ' '])) []
      = List.replicate n "a.a" := by
  intro n
  induction n with
  | zero => simp [splitWsAux]
  | succ k ih =>
    have hpa : isPySpace 'a' = false := by decide
    have hpd : isPySpace '.' = false := by decide
    have hps : isPySpace ' ' = true := by decide
    rw [List.replicate_succ]
    have hshape : List.flatten (['a', '.', 'a', ' '] :: List.replicate k ['a', '.', 'a', ' '])
        = 'a' :: '.' :: 'a' :: ' ' :: List.flatten (List.replicate k ['a', '.', 'a', ' ']) := rfl
    rw [hshape]
    simp only [splitWsAux, hpa, hpd, hps, if_false, if_true, List.isEmpty,
      Bool.false_eq_true, ite_false]
    rw [ih]
    rfl

theorem take_replicate_all {α : Type} (s : α) :
    ∀ n k, n ≤ k → (List.replicate n s).take k = List.replicate n s := by
  intro n
  induction n with
  | zero => intro k _; simp
  | succ m ih =>
    intro k hk
    cases k with
    | zero => omega
    | succ k2 =>
      rw [List.replicate_succ]
      simp only [List.take_succ_cons]
      rw [ih k2 (by omega)]

theorem c4text_data :
    c4text.data = List.flatten (List.replicate 1600 ['a', '.', 'a', ' ']) := rfl

theorem c4text_count : count_tokens c4text = 4266 := by
  unfold count_tokens countWords
  rw [c4text_data, cw_flatten_rep]

theorem cw_join_rep2 (n : Nat) (hn : n ≠ 0) (tail : List Char) :
    countWordsAux (pyJoinAux [' '] (List.replicate n ['a', '.', 'a']) ++ tail) false
      = 2 * n + countWordsAux tail true := by
  cases n with
  | zero => exact absurd rfl hn
  | succ m => exact cw_join_rep m tail

theorem c4text_sentences :
    splitSentences c4text
      = [String.mk (List.flatten (List.replicate 1600 ['a', '.', 'a', ' ']))] := by
  unfold splitSentences
  rw [c4text_data]
  rw [sent_rep 1600 none []]
  rw [List.reverse_nil, List.nil_append]

theorem c4text_eval :
    validate_and_truncate c4text "openai" none
      = (pyJoin " " (List.replicate 1600 "a.a")
          ++ "... [Content truncated to fit model limits]", true) := by
  have hlimit : get_model_limit "openai" none = 4000 := by decide
  have hwords : pySplit c4text = List.replicate 1600 "a.a" := split_rep 1600
  simp only [validate_and_truncate, intelligent_truncate]
  rw [hlimit, c4text_count, c4text_sentences, hwords]
  rw [if_neg (by norm_num)]
  rw [if_neg (by norm_num)]
  rw [if_pos (by simp only [List.length_singleton]; omega)]
  rw [take_replicate_all "a.a" 1600 (3 * ((4000 : Nat) - 50) / 4) (by norm_num)]

theorem c4join_data :
    (pyJoin " " (List.replicate 1600 "a.a")).data
      = pyJoinAux [' '] (List.replicate 1600 ['a', '.', 'a']) := by
  unfold pyJoin
  rw [List.map_replicate]

theorem c4text_result_count :
    count_tokens (pyJoin " " (List.replicate 1600 "a.a")
      ++ "... [Content truncated to fit model limits]") = 4274 := by
  have hm : countWordsAux "... [Content truncated to fit model limits]".data true = 6 := by
    decide
  unfold count_tokens countWords
  rw [strDataAppend, c4join_data]
  rw [cw_join_rep2 1600 (by norm_num)]
  rw [hm]

/-! ## Claim C8 -/

/-- C8: for every text, provider and model, if the estimated token count of
the text is at most the model's limit, `validate_and_truncate` returns the
text unchanged with truncation flag `false`; hence applying it again to the
returned text is idempotent. -/
theorem C8_under_limit_identity (text provider : String) (modelName : Option String)
    (h : count_tokens text ≤ get_model_limit provider modelName) :
    validate_and_truncate text provider modelName = (text, false) ∧
    validate_and_truncate (validate_and_truncate text provider modelName).1 provider modelName
      = validate_and_truncate text provider modelName := by
  have h1 : validate_and_truncate text provider modelName = (text, false) := by
    simp [validate_and_truncate, h]
  refine ⟨h1, ?_⟩
  rw [h1]
  exact h1

/-- Witness for C8 at a concrete under-limit input. -/
theorem C8_under_limit_identity_witness :
    validate_and_truncate "hi" "openai" (some "chatgpt") = ("hi", false) ∧
    validate_and_truncate (validate_and_truncate "hi" "openai" (some "chatgpt")).1 "openai"
        (some "chatgpt")
      = validate_and_truncate "hi" "openai" (some "chatgpt") :=
  C8_under_limit_identity "hi" "openai" (some "chatgpt") (by decide)

/-! ## Claim C4 -/

/-- C4 (amended): for every text whose estimated token count exceeds the
applicable limit, `validate_and_truncate` returns truncation flag `true` and
a text containing a recognizable truncation marker (the word `truncated`
inside one of the bracketed marker literals); being a total function, it
never raises.  The originally claimed output bound `count_tokens ≤ L` (even
up to the 50-token reserve) does not hold — see `C4_bound_counterexample`. -/
theorem C4_truncation_flag_and_marker (text provider : String)
    (modelName : Option String)
    (h : get_model_limit provider modelName < count_tokens text) :
    (validate_and_truncate text provider modelName).2 = true ∧
    strContains (validate_and_truncate text provider modelName).1 "truncated" = true := by
  have hnot : ¬ (count_tokens text ≤ get_model_limit provider modelName) := by omega
  constructor
  · simp [validate_and_truncate, hnot]
  · have h1 : (validate_and_truncate text provider modelName).1
        = intelligent_truncate text (get_model_limit provider modelName) := by
      simp [validate_and_truncate, hnot]
    rw [h1]
    exact intelligent_truncate_marker text (get_model_limit provider modelName) h

/-- Witness for C4 (amended) at the over-limit input `c4text`. -/
theorem C4_truncation_flag_and_marker_witness :
    (validate_and_truncate c4text "openai" none).2 = true ∧
    strContains (validate_and_truncate c4text "openai" none).1 "truncated" = true :=
  C4_truncation_flag_and_marker c4text "openai" none
    (by rw [c4text_count]; decide)

/-- Counterexample to C4 as stated: `c4text` consists of 1600 repetitions of
the whitespace-word `a.a` (two `\w+` runs each).  Its estimated token count
4266 exceeds the applicable limit L = 4000, yet the truncated output that
`validate_and_truncate` returns estimates to 4274 tokens — above the input's
own estimate and far above L plus the 50-token reserve margin.  The cause:
`_intelligent_truncate` budgets `words[:target_words]` in `str.split()`
words, while `count_tokens` counts `\w+` runs, of which one whitespace word
may contain several. -/
theorem C4_bound_counterexample :
    get_model_limit "openai" none = 4000 ∧
    4000 < count_tokens c4text ∧
    (validate_and_truncate c4text "openai" none).2 = true ∧
    4050 < count_tokens (validate_and_truncate c4text "openai" none).1 := by
  refine ⟨by decide, by rw [c4text_count]; omega, ?_, ?_⟩
  · rw [c4text_eval]
  · rw [c4text_eval]
    have := c4text_result_count
    simp only at this ⊢
    rw [this]
    omega

/-! ## Fallback-chain lemmas (`models.py`) -/

theorem getLastSome : ∀ (l : List String), l ≠ [] → ∃ a, l.getLast? = some a := by
  intro l h
  cases l with
  | nil => exact absurd rfl h
  | cons b t =>
    induction t generalizing b with
    | nil => exact ⟨b, rfl⟩
    | cons c t2 ih =>
      obtain ⟨a, ha⟩ := ih c (by simp)
      exact ⟨a, by rw [List.getLast?_cons_cons]; exact ha⟩

theorem lastMem : ∀ (l : List String) (a : String), l.getLast? = some a → a ∈ l := by
  intro l
  induction l with
  | nil => intro a h; simp [List.getLast?] at h
  | cons b t ih =>
    intro a h
    cases t with
    | nil =>
      rw [List.getLast?_singleton] at h
      simp [Option.some.injEq] at h
      simp [h]
    | cons c t2 =>
      rw [List.getLast?_cons_cons] at h
      exact List.mem_cons_of_mem b (ih a h)

theorem getLastAppend (l1 l2 : List String) (h : l2 ≠ []) :
    (l1 ++ l2).getLast? = l2.getLast? := by
  induction l1 with
  | nil => rfl
  | cons a t ih =>
    have hne : t ++ l2 ≠ [] := by
      intro hx
      rcases List.append_eq_nil.mp hx with ⟨_, h2⟩
      exact h h2
    cases hx : t ++ l2 with
    | nil => exact absurd hx hne
    | cons b bs => rw [List.cons_append, hx, List.getLast?_cons_cons, ← hx, ih]

theorem tryModels_first_success (gen : String → Except String String) (last : String) :
    ∀ (pre : List String) (m : String) (post : List String) (t : String),
      (∀ p ∈ pre, p ≠ last) →
      (∀ p ∈ pre, ∃ e, gen p = Except.error e) →
      gen m = Except.ok t →
      tryModels gen last (pre ++ m :: post) = Except.ok (some t) := by
  intro pre
  induction pre with
  | nil => intro m post t _ _ hm; simp [tryModels, hm]
  | cons p pre ih =>
    intro m post t hne hfail hm
    obtain ⟨e, he⟩ := hfail p (by simp)
    have hpl : (p == last) = false := beq_eq_false_iff_ne.mpr (hne p (by simp))
    simp only [List.cons_append, tryModels, he, hpl, Bool.false_eq_true, if_false]
    exact ih m post t (fun q hq => hne q (by simp [hq]))
      (fun q hq => hfail q (by simp [hq])) hm

theorem tryModels_exhaust (gen : String → Except String String) :
    ∀ (models : List String) (last : String) (e : String), models.Nodup →
      models.getLast? = some last →
      (∀ p ∈ models, ∃ err, gen p = Except.error err) →
      gen last = Except.error e →
      tryModels gen last models = Except.error e := by
  intro models
  induction models with
  | nil => intro last e _ h; simp [List.getLast?] at h
  | cons m rest ih =>
    intro last e hnd hlast hfail hle
    cases rest with
    | nil =>
      rw [List.getLast?_singleton] at hlast
      simp only [Option.some.injEq] at hlast
      subst hlast
      simp [tryModels, hle]
    | cons m2 rest2 =>
      rw [List.getLast?_cons_cons] at hlast
      have hlm : last ∈ m2 :: rest2 := lastMem _ _ hlast
      have hmne : m ≠ last := by
        intro hEq
        subst hEq
        exact (List.nodup_cons.mp hnd).1 hlm
      obtain ⟨err, herr⟩ := hfail m (by simp)
      have hb : (m == last) = false := beq_eq_false_iff_ne.mpr hmne
      simp only [tryModels, herr, hb, Bool.false_eq_true, if_false]
      exact ih last e (List.nodup_cons.mp hnd).2 hlast
        (fun q hq => hfail q (by simp [hq])) hle

theorem chatInner_all_fail (att : String → String → Except String String)
    (u lastU lastM : String) :
    ∀ ms, (∀ m ∈ ms, ∃ e, att u m = Except.error e) →
      (∀ m ∈ ms, (u == lastU && m == lastM) = false) →
      chatInner att u lastU lastM ms = none := by
  intro ms
  induction ms with
  | nil => intro _ _; rfl
  | cons m rest ih =>
    intro hfail htrig
    obtain ⟨e, he⟩ := hfail m (by simp)
    have ht := htrig m (by simp)
    simp only [chatInner, he, ht, Bool.false_eq_true, if_false]
    exact ih (fun q hq => hfail q (by simp [hq])) (fun q hq => htrig q (by simp [hq]))

theorem chatInner_first_success (att : String → String → Except String String)
    (u lastU lastM : String) :
    ∀ (preM : List String) (m : String) (postM : List String) (t : String),
      (∀ p ∈ preM, ∃ e, att u p = Except.error e) →
      (∀ p ∈ preM, (u == lastU && p == lastM) = false) →
      att u m = Except.ok t →
      chatInner att u lastU lastM (preM ++ m :: postM) = some (Except.ok t) := by
  intro preM
  induction preM with
  | nil => intro m postM t _ _ hm; simp [chatInner, hm]
  | cons p preM ih =>
    intro m postM t hfail htrig hm
    obtain ⟨e, he⟩ := hfail p (by simp)
    have ht := htrig p (by simp)
    simp only [List.cons_append, chatInner, he, ht, Bool.false_eq_true, if_false]
    exact ih m postM t (fun q hq => hfail q (by simp [hq]))
      (fun q hq => htrig q (by simp [hq])) hm

theorem chatInner_exhaust (att : String → String → Except String String)
    (lastU lastM : String) :
    ∀ (ms : List String) (e : String), ms.Nodup →
      ms.getLast? = some lastM →
      (∀ m ∈ ms, ∃ err, att lastU m = Except.error err) →
      att lastU lastM = Except.error e →
      chatInner att lastU lastU lastM ms = some (Except.error e) := by
  intro ms
  induction ms with
  | nil => intro e _ h; simp [List.getLast?] at h
  | cons m rest ih =>
    intro e hnd hlast hfail hle
    cases rest with
    | nil =>
      rw [List.getLast?_singleton] at hlast
      simp only [Option.some.injEq] at hlast
      subst hlast
      simp [chatInner, hle]
    | cons m2 rest2 =>
      rw [List.getLast?_cons_cons] at hlast
      have hlm : lastM ∈ m2 :: rest2 := lastMem _ _ hlast
      have hmne : m ≠ lastM := by
        intro hEq
        subst hEq
        exact (List.nodup_cons.mp hnd).1 hlm
      obtain ⟨err, herr⟩ := hfail m (by simp)
      have hb : (m == lastM) = false := beq_eq_false_iff_ne.mpr hmne
      simp only [chatInner, herr, hb, Bool.and_false, Bool.false_eq_true, if_false]
      exact ih e (List.nodup_cons.mp hnd).2 hlast
        (fun q hq => hfail q (by simp [hq])) hle

theorem chatOuter_first_success (att : String → String → Except String String)
    (lastU lastM : String) (models : List String) :
    ∀ (preU : List String) (u : String) (postU : List String) (t : String),
      (∀ v ∈ preU, chatInner att v lastU lastM models = none) →
      chatInner att u lastU lastM models = some (Except.ok t) →
      chatOuter att lastU lastM models (preU ++ u :: postU) = Except.ok (some t) := by
  intro preU
  induction preU with
  | nil => intro u postU t _ hu; simp [chatOuter, hu]
  | cons v preU ih =>
    intro u postU t hskip hu
    have hv := hskip v (by simp)
    simp only [List.cons_append, chatOuter, hv]
    exact ih u postU t (fun w hw => hskip w (by simp [hw])) hu

theorem chatOuter_exhaust (att : String → String → Except String String)
    (lastU lastM : String) (models : List String) :
    ∀ (preU : List String) (e : String),
      (∀ v ∈ preU, chatInner att v lastU lastM models = none) →
      chatInner att lastU lastU lastM models = some (Except.error e) →
      chatOuter att lastU lastM models (preU ++ [lastU]) = Except.error e := by
  intro preU
  induction preU with
  | nil => intro e _ hu; simp [chatOuter, hu]
  | cons v preU ih =>
    intro e hskip hu
    have hv := hskip v (by simp)
    simp only [List.cons_append, chatOuter, hv]
    exact ih e (fun w hw => hskip w (by simp [hw])) hu

theorem chatgpt_first_success (gen : String → String → Except String String)
    (prompt : String) (pre : List String) (m : String) (post : List String)
    (t : String) (hnd : (pre ++ m :: post).Nodup)
    (hfail : ∀ p ∈ pre, ∃ e, gen p prompt = Except.error e)
    (hm : gen m prompt = Except.ok t) :
    chatgpt_get_response gen (pre ++ m :: post) prompt = Except.ok (some t) := by
  have hne : (m :: post) ≠ ([] : List String) := by simp
  obtain ⟨L, hL⟩ := getLastSome (m :: post) hne
  have hfull : (pre ++ m :: post).getLast? = some L := by
    rw [getLastAppend _ _ hne]; exact hL
  have hLmem : L ∈ m :: post := lastMem _ _ hL
  have hdisj : pre.Disjoint (m :: post) := (List.nodup_append.mp hnd).2.2
  unfold chatgpt_get_response
  rw [hfull]
  exact tryModels_first_success (fun x => gen x prompt) L pre m post t
    (fun p hp hEq => hdisj hp (hEq ▸ hLmem))
    hfail hm

theorem chatgpt_exhaust (gen : String → String → Except String String)
    (prompt : String) (models : List String) (L e : String)
    (hnd : models.Nodup) (hL : models.getLast? = some L)
    (hfail : ∀ p ∈ models, ∃ err, gen p prompt = Except.error err)
    (hle : gen L prompt = Except.error e) :
    chatgpt_get_response gen models prompt = Except.error e := by
  unfold chatgpt_get_response
  rw [hL]
  exact tryModels_exhaust (fun x => gen x prompt) models L e hnd hL hfail hle

theorem meta_first_success (net : String → String → String → Except String ChatPayload)
    (prompt : String) (u : String) (postU : List String)
    (preM : List String) (m : String) (postM : List String) (t : String)
    (preUl : List String)
    (hndU : (preUl ++ u :: postU).Nodup) (hndM : (preM ++ m :: postM).Nodup)
    (hfailPre : ∀ v ∈ preUl, ∀ p ∈ preM ++ m :: postM,
       ∃ e, chatAttempt net v p prompt = Except.error e)
    (hfailM : ∀ p ∈ preM, ∃ e, chatAttempt net u p prompt = Except.error e)
    (hok : chatAttempt net u m prompt = Except.ok t) :
    meta_get_response net (preUl ++ u :: postU) (preM ++ m :: postM) prompt
      = Except.ok (some t) := by
  have hneU : (u :: postU) ≠ ([] : List String) := by simp
  have hneM : (m :: postM) ≠ ([] : List String) := by simp
  obtain ⟨LU, hLU⟩ := getLastSome (u :: postU) hneU
  obtain ⟨LM, hLM⟩ := getLastSome (m :: postM) hneM
  have hfullU : (preUl ++ u :: postU).getLast? = some LU := by
    rw [getLastAppend _ _ hneU]; exact hLU
  have hfullM : (preM ++ m :: postM).getLast? = some LM := by
    rw [getLastAppend _ _ hneM]; exact hLM
  have hLUmem : LU ∈ u :: postU := lastMem _ _ hLU
  have hLMmem : LM ∈ m :: postM := lastMem _ _ hLM
  have hdisjU : preUl.Disjoint (u :: postU) := (List.nodup_append.mp hndU).2.2
  have hdisjM : preM.Disjoint (m :: postM) := (List.nodup_append.mp hndM).2.2
  unfold meta_get_response
  rw [hfullU, hfullM]
  apply chatOuter_first_success _ LU LM _ preUl u postU t
  · intro v hv
    apply chatInner_all_fail
    · exact fun p hp => hfailPre v hv p hp
    · intro p _
      have : (v == LU) = false :=
        beq_eq_false_iff_ne.mpr (fun hEq => hdisjU hv (hEq ▸ hLUmem))
      rw [this, Bool.false_and]
  · apply chatInner_first_success _ u LU LM preM m postM t hfailM _ hok
    intro p hp
    have : (p == LM) = false :=
      beq_eq_false_iff_ne.mpr (fun hEq => hdisjM hp (hEq ▸ hLMmem))
    rw [this, Bool.and_false]

theorem meta_exhaust (net : String → String → String → Except String ChatPayload)
    (prompt : String) (endpoints models : List String) (LU LM e : String)
    (hndU : endpoints.Nodup) (hndM : models.Nodup)
    (hLU : endpoints.getLast? = some LU) (hLM : models.getLast? = some LM)
    (hfail : ∀ v ∈ endpoints, ∀ p ∈ models,
       ∃ err, chatAttempt net v p prompt = Except.error err)
    (hle : chatAttempt net LU LM prompt = Except.error e) :
    meta_get_response net endpoints models prompt = Except.error e := by
  have hneU : endpoints ≠ [] := by
    intro hx; rw [hx] at hLU; simp [List.getLast?] at hLU
  have hgl : endpoints.getLast hneU = LU := by
    have := List.getLast?_eq_getLast endpoints hneU
    rw [hLU] at this
    exact (Option.some.injEq _ _ ▸ this).symm
  have hdecomp : endpoints.dropLast ++ [LU] = endpoints := by
    rw [← hgl]
    exact List.dropLast_append_getLast hneU
  have hndU2 : (endpoints.dropLast ++ [LU]).Nodup := by rw [hdecomp]; exact hndU
  have hdisj : endpoints.dropLast.Disjoint [LU] := (List.nodup_append.mp hndU2).2.2
  unfold meta_get_response
  rw [hLU, hLM]
  rw [← hdecomp]
  apply chatOuter_exhaust
  · intro v hv
    apply chatInner_all_fail
    · intro p hp
      exact hfail v (by rw [← hdecomp]; exact List.mem_append_left _ hv) p hp
    · intro p _
      have : (v == LU) = false :=
        beq_eq_false_iff_ne.mpr (fun hEq => hdisj hv (by simp [hEq]))
      rw [this, Bool.false_and]
  · exact chatInner_exhaust _ LU LM models e hndM hLM
      (fun p hp => hfail LU (lastMem _ _ hLU) p hp) hle

/-! ## Claim C3 -/

/-- C3: for duplicate-free candidate lists (which discovery produces), each
adapter's `get_response` tries candidates in strict priority order — for
Meta/Grok-style adapters endpoints outer, models inner.  The first succeeding
candidate determines the returned text regardless of every later candidate
(so no later candidate is attempted), and an exception escapes only when the
final candidate of the chain fails, in which case that candidate's exception
is re-raised. -/
theorem C3_fallback_priority_order :
    (∀ (gen : String → String → Except String String) (prompt : String)
       (pre : List String) (m : String) (post : List String) (t : String),
       (pre ++ m :: post).Nodup →
       (∀ p ∈ pre, ∃ e, gen p prompt = Except.error e) →
       gen m prompt = Except.ok t →
       chatgpt_get_response gen (pre ++ m :: post) prompt = Except.ok (some t)) ∧
    (∀ (gen : String → String → Except String String) (prompt : String)
       (models : List String) (L e : String),
       models.Nodup → models.getLast? = some L →
       (∀ p ∈ models, ∃ err, gen p prompt = Except.error err) →
       gen L prompt = Except.error e →
       chatgpt_get_response gen models prompt = Except.error e) ∧
    (∀ (net : String → String → String → Except String ChatPayload)
       (prompt u : String) (postU preUl preM : List String) (m : String)
       (postM : List String) (t : String),
       (preUl ++ u :: postU).Nodup → (preM ++ m :: postM).Nodup →
       (∀ v ∈ preUl, ∀ p ∈ preM ++ m :: postM,
          ∃ e, chatAttempt net v p prompt = Except.error e) →
       (∀ p ∈ preM, ∃ e, chatAttempt net u p prompt = Except.error e) →
       chatAttempt net u m prompt = Except.ok t →
       meta_get_response net (preUl ++ u :: postU) (preM ++ m :: postM) prompt
         = Except.ok (some t)) ∧
    (∀ (net : String → String → String → Except String ChatPayload)
       (prompt : String) (endpoints models : List String) (LU LM e : String),
       endpoints.Nodup → models.Nodup →
       endpoints.getLast? = some LU → models.getLast? = some LM →
       (∀ v ∈ endpoints, ∀ p ∈ models,
          ∃ err, chatAttempt net v p prompt = Except.error err) →
       chatAttempt net LU LM prompt = Except.error e →
       meta_get_response net endpoints models prompt = Except.error e) :=
  ⟨fun gen prompt pre m post t hnd hfail hm =>
     chatgpt_first_success gen prompt pre m post t hnd hfail hm,
   fun gen prompt models L e hnd hL hfail hle =>
     chatgpt_exhaust gen prompt models L e hnd hL hfail hle,
   fun net prompt u postU preUl preM m postM t hndU hndM hfailPre hfailM hok =>
     meta_first_success net prompt u postU preM m postM t preUl hndU hndM
       hfailPre hfailM hok,
   fun net prompt endpoints models LU LM e hndU hndM hLU hLM hfail hle =>
     meta_exhaust net prompt endpoints models LU LM e hndU hndM hLU hLM hfail hle⟩

/-- Witness for C3: a chatgpt-style chain `[m1, m2, m3]` where `m1` and `m2`
raise and `m3` succeeds returns `m3`'s output, and a meta-style chain over
two endpoints where every pair raises propagates the final pair's error. -/
theorem C3_fallback_priority_order_witness :
    chatgpt_get_response
        (fun m _ => if m == "m3" then Except.ok "T" else Except.error "boom")
        (["m1", "m2"] ++ "m3" :: []) "q" = Except.ok (some "T") ∧
    meta_get_response (fun _ _ _ => Except.error "down")
        ["u1", "u2"] ["m1", "m2"] "q" = Except.error "down" := by
  constructor
  · exact C3_fallback_priority_order.1
      (fun m _ => if m == "m3" then Except.ok "T" else Except.error "boom")
      "q" ["m1", "m2"] "m3" [] "T" (by decide)
      (fun p hp => ⟨"boom", by
        rcases List.mem_cons.mp hp with h1 | h1
        · subst h1; rfl
        · rcases List.mem_cons.mp h1 with h2 | h2
          · subst h2; rfl
          · cases h2⟩)
      rfl
  · exact C3_fallback_priority_order.2.2.2
      (fun _ _ _ => Except.error "down") "q" ["u1", "u2"] ["m1", "m2"]
      "u2" "m2" "down" (by decide) (by decide) rfl rfl
      (fun v _ p _ => ⟨"down", rfl⟩) rfl

/-! ## Claim C9 -/

/-- C9: for every adapter, when the discovery-resolved candidate list is
empty the `for` loop body never runs and `get_response` returns Python's
implicit `None` (`Except.ok none` here) — neither a string nor a raised
exception — which then flows to the caller. -/
theorem C9_empty_candidates_return_none :
    (∀ (gen : String → String → Except String String) (prompt : String),
       chatgpt_get_response gen [] prompt = Except.ok none) ∧
    (∀ (gen : String → String → Except String String) (prompt : String),
       claude_get_response gen [] prompt = Except.ok none) ∧
    (∀ (gen : String → String → Except String String) (prompt : String),
       gemini_get_response gen [] prompt = Except.ok none) ∧
    (∀ (net : String → String → String → Except String ChatPayload)
       (models : List String) (prompt : String),
       meta_get_response net [] models prompt = Except.ok none) ∧
    (∀ (net : String → String → String → Except String ChatPayload)
       (endpoints : List String) (prompt : String),
       meta_get_response net endpoints [] prompt = Except.ok none) ∧
    (∀ (net : String → String → String → Except String ChatPayload)
       (models : List String) (prompt : String),
       grok_get_response net [] models prompt = Except.ok none) ∧
    (∀ (net : String → String → String → Except String ChatPayload)
       (endpoints : List String) (prompt : String),
       grok_get_response net endpoints [] prompt = Except.ok none) := by
  refine ⟨fun gen prompt => rfl, fun gen prompt => rfl, fun gen prompt => rfl,
    fun net models prompt => rfl, fun net endpoints prompt => ?_,
    fun net models prompt => rfl, fun net endpoints prompt => ?_⟩
  · unfold meta_get_response
    cases endpoints.getLast? <;> rfl
  · unfold grok_get_response
    cases endpoints.getLast? <;> rfl

/-! ## Discovery lemmas (`model_discovery.py`) -/

theorem retry_attempts_le (op : Nat → Except String (List String))
    (fb : List String) :
    ∀ (rem i : Nat), (retry_with_fallback op fb rem i).2 ≤ i + rem + 1 := by
  intro rem
  induction rem with
  | zero => intro i; simp [retry_with_fallback]
  | succ r ih =>
    intro i
    cases h : op i with
    | ok v => simp [retry_with_fallback, h]
    | error e =>
      simp only [retry_with_fallback, h]
      have := ih (i + 1)
      omega

theorem retry_all_fail (op : Nat → Except String (List String))
    (fb : List String) :
    ∀ (rem i : Nat), (∀ j, i ≤ j → j ≤ i + rem → ∃ e, op j = Except.error e) →
      retry_with_fallback op fb rem i = (fb, i + rem + 1) := by
  intro rem
  induction rem with
  | zero =>
    intro i h
    obtain ⟨e, he⟩ := h i (Nat.le_refl i) (by omega)
    simp [retry_with_fallback, he]
  | succ r ih =>
    intro i h
    obtain ⟨e, he⟩ := h i (Nat.le_refl i) (by omega)
    simp only [retry_with_fallback, he]
    have := ih (i + 1) (fun j h1 h2 => h j (by omega) (by omega))
    rw [this]
    refine congrArg (fun n => (fb, n)) ?_
    omega

theorem retry_agree (op op2 : Nat → Except String (List String))
    (fb : List String) :
    ∀ (rem i : Nat), (∀ j, j ≤ i + rem → op j = op2 j) →
      retry_with_fallback op fb rem i = retry_with_fallback op2 fb rem i := by
  intro rem
  induction rem with
  | zero =>
    intro i h
    unfold retry_with_fallback
    rw [h i (by omega)]
  | succ r ih =>
    intro i h
    unfold retry_with_fallback
    rw [h i (by omega)]
    cases op2 i with
    | ok v => rfl
    | error e => exact ih (i + 1) (fun j hj => h j (by omega))

theorem retry_result_shape (op : Nat → Except String (List String))
    (fb : List String) :
    ∀ (rem i : Nat), (retry_with_fallback op fb rem i).1 = fb ∨
      ∃ j v, op j = Except.ok v ∧ (retry_with_fallback op fb rem i).1 = v := by
  intro rem
  induction rem with
  | zero =>
    intro i
    cases h : op i with
    | ok v => exact Or.inr ⟨i, v, h, by simp [retry_with_fallback, h]⟩
    | error e => exact Or.inl (by simp [retry_with_fallback, h])
  | succ r ih =>
    intro i
    cases h : op i with
    | ok v => exact Or.inr ⟨i, v, h, by simp [retry_with_fallback, h]⟩
    | error e =>
      simp only [retry_with_fallback, h]
      exact ih (i + 1)

theorem getCached_set (c : Cache) (k : String) (d : DiscData) (now : Nat) :
    getCachedData (setCacheData c k d now) k now = some d := by
  unfold getCachedData isCacheValid cacheLookup setCacheData
  simp [List.find?]

theorem openaiAttempt_ok_ne_nil (live : LiveOracle) (timeout i : Nat)
    (v : List String) (h : openaiAttempt live timeout i = Except.ok v) : v ≠ [] := by
  unfold openaiAttempt at h
  by_cases ht : timeout < live.runtime i
  · rw [if_pos ht] at h; cases h
  · rw [if_neg ht] at h
    cases ha : live.api i with
    | error e => rw [ha] at h; cases h
    | ok ids =>
      rw [ha] at h
      simp only [Except.ok.injEq] at h
      subst h
      by_cases hc : (sortByKey modelPriority (filterChatModels ids)).isEmpty
      · simp [hc, fallbackOpenaiModels]
      · simp only [hc, if_false, Bool.false_eq_true]
        intro hx
        rw [hx] at hc
        exact hc rfl

theorem get_openai_miss_ne_nil (live : LiveOracle) (c : Cache) (now : Nat)
    (hmiss : getCachedData c "openai" now = none) :
    (get_openai_models live c now).1 ≠ [] := by
  unfold get_openai_models
  rw [hmiss]
  simp only
  rcases retry_result_shape (fun i => openaiAttempt live 8 i) fallbackOpenaiModels 2 0 with
    h | ⟨j, v, hok, hv⟩
  · rw [h]; simp [fallbackOpenaiModels]
  · rw [hv]; exact openaiAttempt_ok_ne_nil live 8 j v hok

/-! ## Claim C7 -/

/-- C7 (amended): every discovery getter is a total function (never raises).
Only the openai key performs live resolution: on a cache miss it makes at
most 3 attempts (up to 2 retries), each bounded by the 8-second
`asyncio.wait_for` timeout; if all 3 fail (timeouts included) it returns the
hardcoded pre-ranked fallback list after exactly 3 attempts, and no attempt
beyond the third is ever consulted.  The resulting list is stored as one
atomic snapshot (data with timestamp), and a later call within the TTL
returns it unchanged with zero live calls.  The anthropic, google, meta and
grok getters perform zero live attempts and, on a miss, return their
hardcoded pre-ranked data directly. -/
theorem C7_discovery_retry_and_fallback :
    (∀ (live : LiveOracle) (c : Cache) (now : Nat),
       (get_openai_models live c now).2.2 ≤ 3) ∧
    (∀ (live : LiveOracle) (now : Nat),
       (∀ i, i ≤ 2 → ∃ e, openaiAttempt live 8 i = Except.error e) →
       (get_openai_models live emptyCache now).1 = fallbackOpenaiModels ∧
       (get_openai_models live emptyCache now).2.2 = 3) ∧
    (∀ (live : LiveOracle) (i : Nat), 8 < live.runtime i →
       openaiAttempt live 8 i = Except.error "TimeoutError") ∧
    (∀ (live live2 : LiveOracle) (c : Cache) (now : Nat),
       (∀ i, i ≤ 2 → openaiAttempt live 8 i = openaiAttempt live2 8 i) →
       get_openai_models live c now = get_openai_models live2 c now) ∧
    (∀ (live : LiveOracle) (now : Nat),
       getCachedData (get_openai_models live emptyCache now).2.1 "openai" now
           = some (DiscData.models (get_openai_models live emptyCache now).1) ∧
       ∀ live2, get_openai_models live2 (get_openai_models live emptyCache now).2.1 now
           = ((get_openai_models live emptyCache now).1,
              (get_openai_models live emptyCache now).2.1, 0)) ∧
    (∀ (c : Cache) (now : Nat) (k : String),
       (get_anthropic_models c now).2.2 = 0 ∧ (get_google_models c now).2.2 = 0 ∧
       (get_meta_config c now).2.2 = 0 ∧ (get_grok_config k c now).2.2 = 0) ∧
    (∀ (now : Nat) (k : String),
       (get_anthropic_models emptyCache now).1 = knownAnthropicModels ∧
       (get_google_models emptyCache now).1 = knownGoogleModels ∧
       (get_meta_config emptyCache now).1 = (metaFallbackEndpoints, metaFallbackModels) ∧
       (get_grok_config k emptyCache now).1 = (grokFallbackEndpoints, grokFallbackModels)) := by
  refine ⟨?_, ?_, ?_, ?_, ?_, ?_, ?_⟩
  · intro live c now
    unfold get_openai_models
    split
    · simp
    · simp only
      have := retry_attempts_le (fun i => openaiAttempt live 8 i) fallbackOpenaiModels 2 0
      omega
  · intro live now hfail
    have hmiss : getCachedData emptyCache "openai" now = none := rfl
    have hretry := retry_all_fail (fun i => openaiAttempt live 8 i) fallbackOpenaiModels 2 0
      (fun j _ hj2 => hfail j (by omega))
    constructor
    · unfold get_openai_models
      rw [hmiss]
      simp only [hretry]
    · unfold get_openai_models
      rw [hmiss]
      simp only [hretry]
  · intro live i ht
    unfold openaiAttempt
    rw [if_pos ht]
  · intro live live2 c now hagree
    unfold get_openai_models
    have := retry_agree (fun i => openaiAttempt live 8 i)
      (fun i => openaiAttempt live2 8 i) fallbackOpenaiModels 2 0
      (fun j hj => hagree j (by omega))
    rw [this]
  · intro live now
    have hmiss : getCachedData emptyCache "openai" now = none := rfl
    have hshape : get_openai_models live emptyCache now
        = ((retry_with_fallback (fun i => openaiAttempt live 8 i) fallbackOpenaiModels 2 0).1,
           setCacheData emptyCache "openai"
             (DiscData.models
               (retry_with_fallback (fun i => openaiAttempt live 8 i)
                 fallbackOpenaiModels 2 0).1) now,
           (retry_with_fallback (fun i => openaiAttempt live 8 i)
             fallbackOpenaiModels 2 0).2) := by
      unfold get_openai_models
      rw [hmiss]
    constructor
    · rw [hshape]
      exact getCached_set emptyCache "openai" _ now
    · intro live2
      have hcached : getCachedData (get_openai_models live emptyCache now).2.1 "openai" now
          = some (DiscData.models (get_openai_models live emptyCache now).1) := by
        rw [hshape]
        exact getCached_set emptyCache "openai" _ now
      generalize hX : get_openai_models live emptyCache now = X at hcached ⊢
      unfold get_openai_models
      rw [hcached]
  · intro c now k
    refine ⟨?_, ?_, ?_, ?_⟩
    · unfold get_anthropic_models; split <;> rfl
    · unfold get_google_models; split <;> rfl
    · unfold get_meta_config; split <;> rfl
    · unfold get_grok_config; split <;> rfl
  · intro now k
    exact ⟨rfl, rfl, rfl, rfl⟩

/-- Witness for C7 at a concrete always-failing live oracle: the fallback
list is returned after exactly 3 attempts. -/
theorem C7_discovery_retry_and_fallback_witness :
    (get_openai_models live0 emptyCache 0).1 = fallbackOpenaiModels ∧
    (get_openai_models live0 emptyCache 0).2.2 = 3 :=
  C7_discovery_retry_and_fallback.2.1 live0 0
    (fun _ _ => ⟨"ConnectionError", rfl⟩)

/-- Counterexample to C7 as stated: the claim asserts that *every* provider
key attempts live resolution (with timeout and retries) on a cache miss.
Counting actual live calls, only the openai getter makes any (3 with an
always-failing oracle); the anthropic, google, meta and grok getters make 0
live calls on a fresh cache and return their static data directly. -/
theorem C7_live_resolution_counterexample :
    (get_anthropic_models emptyCache 0).2.2 = 0 ∧
    (get_google_models emptyCache 0).2.2 = 0 ∧
    (get_meta_config emptyCache 0).2.2 = 0 ∧
    (get_grok_config "k" emptyCache 0).2.2 = 0 ∧
    (get_openai_models live0 emptyCache 0).2.2 = 3 :=
  ⟨rfl, rfl, rfl, rfl, rfl⟩

/-! ## Orchestrator lemmas (`compare.py`) -/

theorem tryModels_ne_ok_none (gen : String → Except String String) :
    ∀ (l : List String) (last : String), l.getLast? = some last →
      tryModels gen last l ≠ Except.ok none := by
  intro l
  induction l with
  | nil => intro last h; simp [List.getLast?] at h
  | cons m rest ih =>
    intro last h
    cases rest with
    | nil =>
      rw [List.getLast?_singleton] at h
      simp only [Option.some.injEq] at h
      subst h
      unfold tryModels
      cases gen m with
      | ok t => simp
      | error e => simp
    | cons m2 rest2 =>
      rw [List.getLast?_cons_cons] at h
      unfold tryModels
      cases gen m with
      | ok t => simp
      | error e =>
        dsimp only
        by_cases hb : (m == last) = true
        · rw [if_pos hb]
          simp
        · rw [if_neg hb]
          exact ih last h

theorem chatInner_last_ne_none (att : String → String → Except String String)
    (lastU lastM : String) :
    ∀ (ms : List String), ms.getLast? = some lastM →
      chatInner att lastU lastU lastM ms ≠ none := by
  intro ms
  induction ms with
  | nil => intro h; simp [List.getLast?] at h
  | cons m rest ih =>
    intro h
    cases rest with
    | nil =>
      rw [List.getLast?_singleton] at h
      simp only [Option.some.injEq] at h
      subst h
      unfold chatInner
      cases att lastU m with
      | ok t => simp
      | error e => simp
    | cons m2 rest2 =>
      rw [List.getLast?_cons_cons] at h
      unfold chatInner
      cases att lastU m with
      | ok t => simp
      | error e =>
        dsimp only
        by_cases hb : (lastU == lastU && m == lastM) = true
        · rw [if_pos hb]
          simp
        · rw [if_neg hb]
          exact ih h

theorem chatOuter_ne_ok_none (att : String → String → Except String String)
    (lastU lastM : String) (ms : List String) (hms : ms.getLast? = some lastM) :
    ∀ (es : List String), es.getLast? = some lastU →
      chatOuter att lastU lastM ms es ≠ Except.ok none := by
  intro es
  induction es with
  | nil => intro h; simp [List.getLast?] at h
  | cons u rest ih =>
    intro h
    cases rest with
    | nil =>
      rw [List.getLast?_singleton] at h
      simp only [Option.some.injEq] at h
      subst h
      unfold chatOuter
      cases hi : chatInner att u u lastM ms with
      | none => exact absurd hi (chatInner_last_ne_none att u lastM ms hms)
      | some r =>
        cases r with
        | ok t => simp
        | error e => simp
    | cons u2 rest2 =>
      rw [List.getLast?_cons_cons] at h
      unfold chatOuter
      cases hi : chatInner att u lastU lastM ms with
      | none => exact ih h
      | some r =>
        cases r with
        | ok t => simp
        | error e => simp

theorem adapterResponse_ne_ok_none (g : GenOracle) (a : ModelAdapter)
    (hwf : adapterWF a) (prompt : String) :
    adapterResponse g a prompt ≠ Except.ok none := by
  cases a with
  | chatgpt ms =>
    obtain ⟨L, hL⟩ := getLastSome ms hwf
    show chatgpt_get_response g.chatgpt ms prompt ≠ Except.ok none
    unfold chatgpt_get_response
    rw [hL]
    exact tryModels_ne_ok_none _ ms L hL
  | claude ms =>
    obtain ⟨L, hL⟩ := getLastSome ms hwf
    show claude_get_response g.claude ms prompt ≠ Except.ok none
    unfold claude_get_response
    rw [hL]
    exact tryModels_ne_ok_none _ ms L hL
  | gemini ms =>
    obtain ⟨L, hL⟩ := getLastSome ms hwf
    show gemini_get_response g.gemini ms prompt ≠ Except.ok none
    unfold gemini_get_response
    rw [hL]
    exact tryModels_ne_ok_none _ ms L hL
  | meta es ms =>
    obtain ⟨LU, hLU⟩ := getLastSome es hwf.1
    obtain ⟨LM, hLM⟩ := getLastSome ms hwf.2
    show meta_get_response g.meta es ms prompt ≠ Except.ok none
    unfold meta_get_response
    rw [hLU, hLM]
    exact chatOuter_ne_ok_none _ LU LM ms hLM es hLU
  | grok es ms =>
    obtain ⟨LU, hLU⟩ := getLastSome es hwf.1
    obtain ⟨LM, hLM⟩ := getLastSome ms hwf.2
    show grok_get_response g.grok es ms prompt ≠ Except.ok none
    unfold grok_get_response
    rw [hLU, hLM]
    exact chatOuter_ne_ok_none _ LU LM ms hLM es hLU

theorem safe_ask_fst (g : GenOracle) (n : String) (a : ModelAdapter) (q : String) :
    (safe_ask g n a q).1 = n := by
  simp only [safe_ask]
  cases adapterResponse g a (processedPrompt n q).1 with
  | error e => rfl
  | ok r =>
    dsimp only
    by_cases h : (processedPrompt n q).2 = true
    · rw [if_pos h]
    · rw [if_neg h]

theorem safe_ask_ne_none (g : GenOracle) (n : String) (a : ModelAdapter)
    (q : String) (hwf : adapterWF a) : (safe_ask g n a q).2 ≠ none := by
  simp only [safe_ask]
  cases hr : adapterResponse g a (processedPrompt n q).1 with
  | error e => simp
  | ok r =>
    dsimp only
    by_cases h : (processedPrompt n q).2 = true
    · rw [if_pos h]
      simp
    · rw [if_neg h]
      cases r with
      | none => exact absurd hr (adapterResponse_ne_ok_none g a hwf _)
      | some v => simp

theorem safe_ask_error (g : GenOracle) (n : String) (a : ModelAdapter)
    (q e : String) (h : adapterResponse g a (processedPrompt n q).1 = Except.error e) :
    safe_ask g n a q = (n, some ("Error: " ++ e)) := by
  simp only [safe_ask]
  rw [h]

theorem allSome_eq :
    ∀ (l : List (String × Option String)), (∀ p ∈ l, p.2 ≠ none) →
      allSome l = some (l.map (fun p => (p.1, p.2.getD ""))) := by
  intro l
  induction l with
  | nil => intro _; rfl
  | cons p t ih =>
    intro h
    obtain ⟨n, v⟩ := p
    cases v with
    | none => exact absurd rfl (h (n, none) (by simp))
    | some v0 =>
      unfold allSome
      rw [ih (fun q hq => h q (by simp [hq]))]
      rfl

theorem initModels_names (env : ProviderEnv) (live : LiveOracle) :
    ((initModels env live).1).map (fun p => p.1) = activeNames env := by
  unfold initModels activeNames
  cases h1 : (get_api_key env.openaiKey).isSome <;>
    cases h2 : (get_api_key env.anthropicKey).isSome <;>
      cases h3 : (get_api_key env.googleKey).isSome <;>
        cases h4 : (get_api_key env.metaKey).isSome <;>
          cases h5 : get_api_key env.grokKey <;>
            simp_all

theorem cacheWF_empty : cacheWF emptyCache := by
  intro p hp
  simp [emptyCache] at hp

theorem getCachedData_wf (c : Cache) (k : String) (now : Nat) (d : DiscData)
    (hc : cacheWF c) (h : getCachedData c k now = some d) : dataWF d := by
  unfold getCachedData at h
  by_cases hv : isCacheValid c k now = true
  · rw [if_pos hv] at h
    unfold cacheLookup at h
    rcases Option.map_eq_some'.mp h with ⟨e, he, hed⟩
    rcases Option.map_eq_some'.mp he with ⟨q, hq, hqe⟩
    have := hc q (List.mem_of_find?_eq_some hq)
    rw [hqe, hed] at this
    exact this
  · rw [if_neg hv] at h
    cases h

theorem setCacheData_wf (c : Cache) (k : String) (d : DiscData) (now : Nat)
    (hc : cacheWF c) (hd : dataWF d) : cacheWF (setCacheData c k d now) := by
  intro p hp
  unfold setCacheData at hp
  rcases List.mem_cons.mp hp with h | h
  · rw [h]
    exact hd
  · exact hc p (List.mem_of_mem_filter h)

theorem retry_openai_ne_nil (live : LiveOracle) :
    (retry_with_fallback (fun i => openaiAttempt live 8 i) fallbackOpenaiModels 2 0).1 ≠ [] := by
  rcases retry_result_shape (fun i => openaiAttempt live 8 i) fallbackOpenaiModels 2 0 with
    h | ⟨j, v, hok, hv⟩
  · rw [h]
    simp [fallbackOpenaiModels]
  · rw [hv]
    exact openaiAttempt_ok_ne_nil live 8 j v hok

theorem get_openai_wf (live : LiveOracle) (c : Cache) (now : Nat) (hc : cacheWF c) :
    (get_openai_models live c now).1 ≠ [] ∧ cacheWF (get_openai_models live c now).2.1 := by
  unfold get_openai_models
  cases h : getCachedData c "openai" now with
  | some d =>
    cases d with
    | models ms => exact ⟨getCachedData_wf c _ now _ hc h, hc⟩
    | config es ms =>
      refine ⟨retry_openai_ne_nil live, ?_⟩
      exact setCacheData_wf c _ _ now hc (retry_openai_ne_nil live)
  | none =>
    refine ⟨retry_openai_ne_nil live, ?_⟩
    exact setCacheData_wf c _ _ now hc (retry_openai_ne_nil live)

theorem get_anthropic_wf (c : Cache) (now : Nat) (hc : cacheWF c) :
    (get_anthropic_models c now).1 ≠ [] ∧ cacheWF (get_anthropic_models c now).2.1 := by
  unfold get_anthropic_models
  cases h : getCachedData c "anthropic" now with
  | some d =>
    cases d with
    | models ms => exact ⟨getCachedData_wf c _ now _ hc h, hc⟩
    | config es ms =>
      refine ⟨by simp [knownAnthropicModels], ?_⟩
      exact setCacheData_wf c _ _ now hc (by simp [dataWF, knownAnthropicModels])
  | none =>
    refine ⟨by simp [knownAnthropicModels], ?_⟩
    exact setCacheData_wf c _ _ now hc (by simp [dataWF, knownAnthropicModels])

theorem get_google_wf (c : Cache) (now : Nat) (hc : cacheWF c) :
    (get_google_models c now).1 ≠ [] ∧ cacheWF (get_google_models c now).2.1 := by
  unfold get_google_models
  cases h : getCachedData c "google" now with
  | some d =>
    cases d with
    | models ms => exact ⟨getCachedData_wf c _ now _ hc h, hc⟩
    | config es ms =>
      refine ⟨by simp [knownGoogleModels], ?_⟩
      exact setCacheData_wf c _ _ now hc (by simp [dataWF, knownGoogleModels])
  | none =>
    refine ⟨by simp [knownGoogleModels], ?_⟩
    exact setCacheData_wf c _ _ now hc (by simp [dataWF, knownGoogleModels])

theorem get_meta_wf (c : Cache) (now : Nat) (hc : cacheWF c) :
    ((get_meta_config c now).1.1 ≠ [] ∧ (get_meta_config c now).1.2 ≠ []) ∧
      cacheWF (get_meta_config c now).2.1 := by
  unfold get_meta_config
  cases h : getCachedData c "meta" now with
  | some d =>
    cases d with
    | config es ms => exact ⟨getCachedData_wf c _ now _ hc h, hc⟩
    | models ms =>
      refine ⟨⟨by simp [metaFallbackEndpoints], by simp [metaFallbackModels]⟩, ?_⟩
      exact setCacheData_wf c _ _ now hc
        (by constructor <;> simp [metaFallbackEndpoints, metaFallbackModels])
  | none =>
    refine ⟨⟨by simp [metaFallbackEndpoints], by simp [metaFallbackModels]⟩, ?_⟩
    exact setCacheData_wf c _ _ now hc
      (by constructor <;> simp [metaFallbackEndpoints, metaFallbackModels])

theorem get_grok_wf (k : String) (c : Cache) (now : Nat) (hc : cacheWF c) :
    ((get_grok_config k c now).1.1 ≠ [] ∧ (get_grok_config k c now).1.2 ≠ []) ∧
      cacheWF (get_grok_config k c now).2.1 := by
  unfold get_grok_config
  cases h : getCachedData c (grokCacheKey k) now with
  | some d =>
    cases d with
    | config es ms => exact ⟨getCachedData_wf c _ now _ hc h, hc⟩
    | models ms =>
      refine ⟨⟨by simp [grokFallbackEndpoints], by simp [grokFallbackModels]⟩, ?_⟩
      exact setCacheData_wf c _ _ now hc
        (by constructor <;> simp [grokFallbackEndpoints, grokFallbackModels])
  | none =>
    refine ⟨⟨by simp [grokFallbackEndpoints], by simp [grokFallbackModels]⟩, ?_⟩
    exact setCacheData_wf c _ _ now hc
      (by constructor <;> simp [grokFallbackEndpoints, grokFallbackModels])

theorem wf_chatgpt_adapter (live : LiveOracle) (c : Cache) (now : Nat) (hc : cacheWF c) :
    adapterWF (ModelAdapter.chatgpt (get_openai_models live c now).1) :=
  (get_openai_wf live c now hc).1

theorem wf_claude_adapter (c : Cache) (now : Nat) (hc : cacheWF c) :
    adapterWF (ModelAdapter.claude (get_anthropic_models c now).1) :=
  (get_anthropic_wf c now hc).1

theorem wf_gemini_adapter (c : Cache) (now : Nat) (hc : cacheWF c) :
    adapterWF (ModelAdapter.gemini (get_google_models c now).1) :=
  (get_google_wf c now hc).1

theorem wf_meta_adapter (c : Cache) (now : Nat) (hc : cacheWF c) :
    adapterWF (ModelAdapter.meta (get_meta_config c now).1.1 (get_meta_config c now).1.2) :=
  (get_meta_wf c now hc).1

theorem wf_grok_adapter (k : String) (c : Cache) (now : Nat) (hc : cacheWF c) :
    adapterWF (ModelAdapter.grok (get_grok_config k c now).1.1 (get_grok_config k c now).1.2) :=
  (get_grok_wf k c now hc).1

theorem cacheWF_openai (live : LiveOracle) (c : Cache) (now : Nat) (hc : cacheWF c) :
    cacheWF (get_openai_models live c now).2.1 := (get_openai_wf live c now hc).2

theorem cacheWF_anthropic (c : Cache) (now : Nat) (hc : cacheWF c) :
    cacheWF (get_anthropic_models c now).2.1 := (get_anthropic_wf c now hc).2

theorem cacheWF_google (c : Cache) (now : Nat) (hc : cacheWF c) :
    cacheWF (get_google_models c now).2.1 := (get_google_wf c now hc).2

theorem cacheWF_meta (c : Cache) (now : Nat) (hc : cacheWF c) :
    cacheWF (get_meta_config c now).2.1 := (get_meta_wf c now hc).2

theorem cacheWF_grok (k : String) (c : Cache) (now : Nat) (hc : cacheWF c) :
    cacheWF (get_grok_config k c now).2.1 := (get_grok_wf k c now hc).2

theorem initModels_wf (env : ProviderEnv) (live : LiveOracle) :
    ∀ p ∈ (initModels env live).1, adapterWF p.2 := by
  intro p hp
  unfold initModels at hp
  cases h1 : (get_api_key env.openaiKey).isSome <;>
    cases h2 : (get_api_key env.anthropicKey).isSome <;>
      cases h3 : (get_api_key env.googleKey).isSome <;>
        cases h4 : (get_api_key env.metaKey).isSome <;>
          cases h5 : get_api_key env.grokKey <;>
            simp_all <;>
              (try subst hp) <;>
                (repeat
                  first
                    | exact cacheWF_empty
                    | exact trivial
                    | apply wf_chatgpt_adapter
                    | apply wf_claude_adapter
                    | apply wf_gemini_adapter
                    | apply wf_meta_adapter
                    | apply wf_grok_adapter
                    | apply cacheWF_openai
                    | apply cacheWF_anthropic
                    | apply cacheWF_google
                    | apply cacheWF_meta
                    | apply cacheWF_grok
                    | (rcases hp with hp | hp
                       try subst hp)
                    | subst hp
                    | dsimp only)

theorem initModels_empty_iff (env : ProviderEnv) (live : LiveOracle) :
    (initModels env live).1 = [] ↔ activeNames env = [] := by
  constructor
  · intro h
    rw [← initModels_names env live, h]
    rfl
  · intro h
    have := initModels_names env live
    rw [h] at this
    exact List.map_eq_nil_iff.mp this

theorem summarize_ne_ok_none (g : GenOracle) (M : List (String × ModelAdapter))
    (responses : List (String × String)) (m : Option String)
    (hwf : ∀ p ∈ M, adapterWF p.2) :
    summarize_responses g M responses m ≠ Except.ok none := by
  unfold summarize_responses
  cases chooseModel M m with
  | none => simp
  | some name =>
    dsimp only
    cases hf : M.find? (fun p => p.1 == name) with
    | none => simp
    | some p =>
      exact adapterResponse_ne_ok_none g p.2 (hwf p (List.mem_of_find?_eq_some hf)) _

theorem consolidate_ne_ok_none (g : GenOracle) (M : List (String × ModelAdapter))
    (responses : List (String × String)) (m : Option String)
    (hwf : ∀ p ∈ M, adapterWF p.2) :
    consolidate_responses g M responses m ≠ Except.ok none := by
  unfold consolidate_responses
  cases chooseModel M m with
  | none => simp
  | some name =>
    dsimp only
    cases hf : M.find? (fun p => p.1 == name) with
    | none => simp
    | some p =>
      exact adapterResponse_ne_ok_none g p.2 (hwf p (List.mem_of_find?_eq_some hf)) _

theorem keysOf_strip (g : GenOracle) (M : List (String × ModelAdapter)) (q : String) :
    keysOf ((M.map (fun p => safe_ask g p.1 p.2 q)).map (fun p => (p.1, p.2.getD "")))
      = M.map (fun p => p.1) := by
  unfold keysOf
  rw [List.map_map, List.map_map]
  apply List.map_congr_left
  intro p _
  show (safe_ask g p.1 p.2 q).1 = p.1
  exact safe_ask_fst g p.1 p.2 q

theorem strip_mem (g : GenOracle) (M : List (String × ModelAdapter)) (q : String)
    (n : String) (a : ModelAdapter) (hmem : (n, a) ∈ M) (v : String)
    (hv : (safe_ask g n a q).2 = some v) :
    (n, v) ∈ (M.map (fun p => safe_ask g p.1 p.2 q)).map (fun p => (p.1, p.2.getD "")) := by
  have h1 : safe_ask g n a q ∈ M.map (fun p => safe_ask g p.1 p.2 q) :=
    List.mem_map_of_mem (fun p => safe_ask g p.1 p.2 q) hmem
  have h2 := List.mem_map_of_mem (fun p => (p.1, p.2.getD "")) h1
  dsimp only at h2
  rw [safe_ask_fst, hv] at h2
  simpa using h2

theorem ask_all_shape (g : GenOracle) (M : List (String × ModelAdapter)) (q : String)
    (hne : M ≠ []) (hwf : ∀ p ∈ M, adapterWF p.2) :
    allSome (M.map (fun p => safe_ask g p.1 p.2 q))
        = some ((M.map (fun p => safe_ask g p.1 p.2 q)).map (fun p => (p.1, p.2.getD ""))) ∧
    (∀ res, allSome (M.map (fun p => safe_ask g p.1 p.2 q)) = some res →
      ((res.filter (fun p => !(pyStarts p.2 "Error:"))).length ≤ 1 →
         ask_all g M q = Except.ok res) ∧
      (∀ e, summarize_responses g M
             (res.filter (fun p => !(pyStarts p.2 "Error:"))) none = Except.error e →
         ask_all g M q = Except.ok res) ∧
      (∀ e, consolidate_responses g M
             (res.filter (fun p => !(pyStarts p.2 "Error:"))) none = Except.error e →
         ask_all g M q = Except.ok res) ∧
      (∀ s c, 1 < (res.filter (fun p => !(pyStarts p.2 "Error:"))).length →
         summarize_responses g M
             (res.filter (fun p => !(pyStarts p.2 "Error:"))) none = Except.ok (some s) →
         consolidate_responses g M
             (res.filter (fun p => !(pyStarts p.2 "Error:"))) none = Except.ok (some c) →
         ask_all g M q = Except.ok
           (res ++ [("_auto_summary", cap4000 s), ("_auto_consolidated", cap4000 c)]))) := by
  have hsome : ∀ p ∈ M.map (fun p => safe_ask g p.1 p.2 q), p.2 ≠ none := by
    intro p hp
    rcases List.mem_map.mp hp with ⟨x, hx, rfl⟩
    exact safe_ask_ne_none g x.1 x.2 q (hwf x hx)
  have hres := allSome_eq _ hsome
  refine ⟨hres, ?_⟩
  intro res hres2
  have hresEq : res = (M.map (fun p => safe_ask g p.1 p.2 q)).map (fun p => (p.1, p.2.getD "")) := by
    rw [hres] at hres2
    exact (Option.some.injEq _ _ ▸ hres2).symm
  have hempty : M.isEmpty = false := by
    cases M with
    | nil => exact absurd rfl hne
    | cons a t => rfl
  refine ⟨?_, ?_, ?_, ?_⟩
  · intro hle
    unfold ask_all
    rw [hempty]
    simp only [Bool.false_eq_true, if_false, hres2]
    rw [if_neg (by omega)]
  · intro e hsum
    unfold ask_all
    rw [hempty]
    simp only [Bool.false_eq_true, if_false, hres2]
    by_cases hlen : 1 < (res.filter (fun p => !(pyStarts p.2 "Error:"))).length
    · rw [if_pos hlen, hsum]
    · rw [if_neg hlen]
  · intro e hcons
    unfold ask_all
    rw [hempty]
    simp only [Bool.false_eq_true, if_false, hres2]
    by_cases hlen : 1 < (res.filter (fun p => !(pyStarts p.2 "Error:"))).length
    · rw [if_pos hlen, hcons]
      cases summarize_responses g M
          (res.filter (fun p => !(pyStarts p.2 "Error:"))) none <;> rfl
    · rw [if_neg hlen]
  · intro s c hlen hsum hcons
    unfold ask_all
    rw [hempty]
    simp only [Bool.false_eq_true, if_false, hres2]
    rw [if_pos hlen, hsum, hcons]
    dsimp only
    rw [List.append_assoc]
    rfl

theorem ask_all_ok_cases (g : GenOracle) (M : List (String × ModelAdapter)) (q : String)
    (hne : M ≠ []) (hwf : ∀ p ∈ M, adapterWF p.2) (res : List (String × String))
    (hres2 : allSome (M.map (fun p => safe_ask g p.1 p.2 q)) = some res) :
    ask_all g M q = Except.ok res ∨
    ∃ s c, summarize_responses g M
             (res.filter (fun p => !(pyStarts p.2 "Error:"))) none = Except.ok (some s) ∧
           consolidate_responses g M
             (res.filter (fun p => !(pyStarts p.2 "Error:"))) none = Except.ok (some c) ∧
           1 < (res.filter (fun p => !(pyStarts p.2 "Error:"))).length ∧
           ask_all g M q = Except.ok
             (res ++ [("_auto_summary", cap4000 s), ("_auto_consolidated", cap4000 c)]) := by
  have hshape := (ask_all_shape g M q hne hwf).2 res hres2
  by_cases hlen : 1 < (res.filter (fun p => !(pyStarts p.2 "Error:"))).length
  · cases hsum : summarize_responses g M
        (res.filter (fun p => !(pyStarts p.2 "Error:"))) none with
    | error e => exact Or.inl (hshape.2.1 e hsum)
    | ok s0 =>
      cases s0 with
      | none => exact absurd hsum (summarize_ne_ok_none g M _ none hwf)
      | some s =>
        cases hcons : consolidate_responses g M
            (res.filter (fun p => !(pyStarts p.2 "Error:"))) none with
        | error e => exact Or.inl (hshape.2.2.1 e hcons)
        | ok c0 =>
          cases c0 with
          | none => exact absurd hcons (consolidate_ne_ok_none g M _ none hwf)
          | some c =>
            exact Or.inr ⟨s, c, rfl, rfl, hlen, hshape.2.2.2 s c hlen hsum hcons⟩
  · exact Or.inl (hshape.1 (by omega))

/-! ## Claim C2 -/

/-- C2: over the initialized provider map, `ask_all` raises if and only if
the active provider set is empty; when it is non-empty `ask_all` returns a
map in which every provider whose dispatched call raised an exception is
bound to the string `"Error: " ++ message` — no provider's exception cancels
a sibling (each remaining provider keeps its own independent entry) and none
escapes `ask_all`. -/
theorem C2_error_isolation (env : ProviderEnv) (live : LiveOracle) (g : GenOracle)
    (q : String) :
    ((∃ msg, ask_all g (initModels env live).1 q = Except.error msg) ↔
       activeNames env = []) ∧
    (∀ r, ask_all g (initModels env live).1 q = Except.ok r →
       ∀ n a, (n, a) ∈ (initModels env live).1 →
         ∀ e, adapterResponse g a (processedPrompt n q).1 = Except.error e →
           (n, "Error: " ++ e) ∈ r) := by
  by_cases hM : activeNames env = []
  · have hnil : (initModels env live).1 = [] := (initModels_empty_iff env live).mpr hM
    constructor
    · constructor
      · intro _; exact hM
      · intro _
        refine ⟨"No AI models available. Please provide at least one valid API key.", ?_⟩
        rw [hnil]
        rfl
    · intro r hr
      rw [hnil] at hr
      cases hr
  · have hne : (initModels env live).1 ≠ [] := fun h =>
      hM ((initModels_empty_iff env live).mp h)
    have hwf := initModels_wf env live
    have hall := (ask_all_shape g (initModels env live).1 q hne hwf).1
    have hcases := ask_all_ok_cases g (initModels env live).1 q hne hwf _ hall
    constructor
    · constructor
      · intro ⟨msg, hmsg⟩
        rcases hcases with h | ⟨s, c, _, _, _, h⟩ <;> rw [h] at hmsg <;> cases hmsg
      · intro h; exact absurd h hM
    · intro r hr n a hmem e herr
      have hv : (safe_ask g n a q).2 = some ("Error: " ++ e) := by
        rw [safe_ask_error g n a q e herr]
      have hin := strip_mem g (initModels env live).1 q n a hmem _ hv
      rcases hcases with h | ⟨s, c, _, _, _, h⟩ <;> rw [h] at hr <;>
        simp only [Except.ok.injEq] at hr <;> subst hr
      · exact hin
      · exact List.mem_append_left _ hin

/-- Witness for C2 at a concrete two-provider run where claude's call raises:
claude's entry is the prefixed error string while chatgpt's answer survives. -/
theorem C2_error_isolation_witness :
    ("claude", "Error: boom") ∈ [("chatgpt", "A"), ("claude", "Error: boom")] :=
  (C2_error_isolation envTwo live0 gClaudeBoom "Q").2
    [("chatgpt", "A"), ("claude", "Error: boom")] (by rfl)
    "claude" (ModelAdapter.claude knownAnthropicModels) (by decide)
    "boom" (by rfl)

/-! ## Claim C1 -/

/-- C1 (amended): for every prompt and every credential environment, the key
list of the map `ask_all` returns is exactly the active provider ids — one
entry per active provider, in construction order — except that when
consolidation triggers and both delegated generations succeed, the two keys
`_auto_summary` and `_auto_consolidated` are appended after them. -/
theorem C1_result_keys (env : ProviderEnv) (live : LiveOracle) (g : GenOracle)
    (q : String) (r : List (String × String))
    (hr : ask_all g (initModels env live).1 q = Except.ok r) :
    keysOf r = activeNames env ∨
    keysOf r = activeNames env ++ ["_auto_summary", "_auto_consolidated"] := by
  by_cases hM : activeNames env = []
  · have hnil : (initModels env live).1 = [] := (initModels_empty_iff env live).mpr hM
    rw [hnil] at hr
    cases hr
  · have hne : (initModels env live).1 ≠ [] := fun h =>
      hM ((initModels_empty_iff env live).mp h)
    have hwf := initModels_wf env live
    have hall := (ask_all_shape g (initModels env live).1 q hne hwf).1
    have hkeys : keysOf ((((initModels env live).1).map
          (fun p => safe_ask g p.1 p.2 q)).map (fun p => (p.1, p.2.getD "")))
        = activeNames env := by
      rw [keysOf_strip, initModels_names]
    rcases ask_all_ok_cases g (initModels env live).1 q hne hwf _ hall with
      h | ⟨s, c, _, _, _, h⟩ <;> rw [h] at hr <;>
        simp only [Except.ok.injEq] at hr <;> subst hr
    · exact Or.inl hkeys
    · refine Or.inr ?_
      show keysOf (_ ++ _) = _
      unfold keysOf at hkeys ⊢
      rw [List.map_append, hkeys]
      rfl

/-- Witness for C1 (amended) at a concrete two-provider success run. -/
theorem C1_result_keys_witness :
    keysOf [("chatgpt", "A"), ("claude", "B"),
            ("_auto_summary", "A"), ("_auto_consolidated", "A")] = activeNames envTwo ∨
    keysOf [("chatgpt", "A"), ("claude", "B"),
            ("_auto_summary", "A"), ("_auto_consolidated", "A")]
      = activeNames envTwo ++ ["_auto_summary", "_auto_consolidated"] :=
  C1_result_keys envTwo live0 gAllOk "Q"
    [("chatgpt", "A"), ("claude", "B"), ("_auto_summary", "A"), ("_auto_consolidated", "A")]
    (by rfl)

/-- Counterexample to C1 as stated: with all five providers credentialed and
all succeeding, `ask_all`'s key set is *not* the active provider set — the
two `_auto_*` consolidation keys are also present. -/
theorem C1_result_keys_counterexample :
    ask_all gAllOk (initModels envAll live0).1 "Q"
      = Except.ok [("chatgpt", "A"), ("claude", "B"), ("gemini", "C"),
                   ("meta", "D"), ("grok", "E"),
                   ("_auto_summary", "A"), ("_auto_consolidated", "A")] ∧
    activeNames envAll = ["chatgpt", "claude", "gemini", "meta", "grok"] ∧
    keysOf [("chatgpt", "A"), ("claude", "B"), ("gemini", "C"),
            ("meta", "D"), ("grok", "E"),
            ("_auto_summary", "A"), ("_auto_consolidated", "A")] ≠ activeNames envAll := by
  refine ⟨by rfl, by rfl, by decide⟩

theorem leadsWith_refl : ∀ l : List Char, leadsWith l l = true := by
  intro l
  induction l with
  | nil => rfl
  | cons c t ih => simp [leadsWith, ih]

theorem hasSub_refl : ∀ l : List Char, hasSub l l = true := by
  intro l
  cases l with
  | nil => rfl
  | cons c t => simp [hasSub, leadsWith_refl]

theorem pyJoinAux_contains (sep : List Char) :
    ∀ (parts : List (List Char)) (x : List Char), x ∈ parts →
      hasSub x (pyJoinAux sep parts) = true := by
  intro parts
  induction parts with
  | nil => intro x hx; cases hx
  | cons y rest ih =>
    intro x hx
    cases rest with
    | nil =>
      rcases List.mem_singleton.mp hx with rfl
      exact hasSub_refl x
    | cons z rest2 =>
      rcases List.mem_cons.mp hx with rfl | hx2
      · show hasSub x (x ++ sep ++ pyJoinAux sep (z :: rest2)) = true
        rw [List.append_assoc]
        exact hasSub_append_left x x _ (hasSub_refl x)
      · show hasSub x (y ++ sep ++ pyJoinAux sep (z :: rest2)) = true
        rw [List.append_assoc]
        exact hasSub_append_right x y _
          (hasSub_append_right x sep _ (ih x hx2))

theorem format_contains (responses : List (String × String))
    (p : String × String)
    (hp : p ∈ responses.filter (fun p => !(pyStarts p.2 "Error:"))) :
    strContains (format_responses_for_summary responses)
      ("=== " ++ pyUpper p.1 ++ " ===\n" ++ p.2) = true := by
  unfold format_responses_for_summary strContains pyJoin
  apply pyJoinAux_contains
  have hmem := List.mem_map_of_mem (fun p => "=== " ++ pyUpper p.1 ++ " ===\n" ++ p.2) hp
  exact List.mem_map_of_mem (fun s => s.data) hmem

theorem summaryPrompt_contains (responses : List (String × String))
    (p : String × String)
    (hp : p ∈ responses.filter (fun p => !(pyStarts p.2 "Error:"))) :
    strContains (summaryPrompt responses)
      ("=== " ++ pyUpper p.1 ++ " ===\n" ++ p.2) = true := by
  unfold summaryPrompt
  apply strContains_append_left
  apply strContains_append_right
  exact format_contains responses p hp

theorem find?_none_of_not_mem_keys (r : List (String × String)) (k : String)
    (h : k ∉ keysOf r) : r.find? (fun p => p.1 == k) = none := by
  induction r with
  | nil => rfl
  | cons p t ih =>
    have hk : (p.1 == k) = false := by
      apply beq_eq_false_iff_ne.mpr
      intro hEq
      exact h (by simp [keysOf, hEq])
    rw [List.find?_cons_of_neg _ (by simp [hk])]
    exact ih (fun hmem => h (by simp [keysOf] at hmem ⊢; exact Or.inr hmem))

theorem lookupVal_none_of_not_mem (r : List (String × String)) (k : String)
    (h : k ∉ keysOf r) : lookupVal r k = none := by
  unfold lookupVal
  rw [find?_none_of_not_mem_keys r k h]
  rfl

theorem find?_append_of_none {α : Type} (p : α → Bool) (l1 l2 : List α)
    (h : l1.find? p = none) : (l1 ++ l2).find? p = l2.find? p := by
  induction l1 with
  | nil => rfl
  | cons a t ih =>
    have hpa : p a = false := by
      by_cases hx : p a = true
      · rw [List.find?_cons_of_pos _ hx] at h; cases h
      · exact Bool.not_eq_true _ |>.mp hx
    rw [List.find?_cons_of_neg _ (by simp [hpa])] at h
    rw [List.cons_append, List.find?_cons_of_neg _ (by simp [hpa])]
    exact ih h

theorem mem_if_singleton {c : Prop} [Decidable c] {x n : String}
    (h : n ∈ if c then [x] else []) : n = x := by
  split at h
  · exact List.mem_singleton.mp h
  · cases h

theorem activeNames_sub (env : ProviderEnv) :
    ∀ n ∈ activeNames env,
      n ∈ ["chatgpt", "claude", "gemini", "meta", "grok"] := by
  intro n hn
  unfold activeNames at hn
  rcases List.mem_append.mp hn with h4 | h5
  · rcases List.mem_append.mp h4 with h3 | hd
    · rcases List.mem_append.mp h3 with h2 | hc
      · rcases List.mem_append.mp h2 with ha | hb
        · simp [mem_if_singleton ha]
        · simp [mem_if_singleton hb]
      · simp [mem_if_singleton hc]
    · simp [mem_if_singleton hd]
  · simp [mem_if_singleton h5]

theorem auto_summary_not_active (env : ProviderEnv) :
    "_auto_summary" ∉ activeNames env := by
  intro h
  have := activeNames_sub env _ h
  simp at this

theorem auto_consolidated_not_active (env : ProviderEnv) :
    "_auto_consolidated" ∉ activeNames env := by
  intro h
  have := activeNames_sub env _ h
  simp at this

/-! ## Claim C5 -/

/-- C5: over a non-empty active set, the `_auto_summary` and
`_auto_consolidated` keys appear in `ask_all`'s result exactly when more than
one provider succeeded and both delegated generation calls succeed; whenever
a delegated generation call fails, `ask_all` still returns the per-provider
results unchanged with both `_auto_*` keys omitted, and the overall query
does not fail. -/
theorem C5_auto_keys_iff (env : ProviderEnv) (live : LiveOracle) (g : GenOracle)
    (q : String) (hactive : activeNames env ≠ []) :
    ∃ res, allSome ((initModels env live).1.map (fun p => safe_ask g p.1 p.2 q)) = some res ∧
      keysOf res = activeNames env ∧
      (∀ e, summarize_responses g (initModels env live).1
          (res.filter (fun p => !(pyStarts p.2 "Error:"))) none = Except.error e →
        ask_all g (initModels env live).1 q = Except.ok res) ∧
      (∀ e, consolidate_responses g (initModels env live).1
          (res.filter (fun p => !(pyStarts p.2 "Error:"))) none = Except.error e →
        ask_all g (initModels env live).1 q = Except.ok res) ∧
      (∀ r, ask_all g (initModels env live).1 q = Except.ok r →
        (((lookupVal r "_auto_summary").isSome ∧
          (lookupVal r "_auto_consolidated").isSome) ↔
          (1 < (res.filter (fun p => !(pyStarts p.2 "Error:"))).length ∧
           (∃ s, summarize_responses g (initModels env live).1
               (res.filter (fun p => !(pyStarts p.2 "Error:"))) none
               = Except.ok (some s)) ∧
           (∃ c, consolidate_responses g (initModels env live).1
               (res.filter (fun p => !(pyStarts p.2 "Error:"))) none
               = Except.ok (some c))))) := by
  have hne : (initModels env live).1 ≠ [] := fun h =>
    hactive ((initModels_empty_iff env live).mp h)
  have hwf := initModels_wf env live
  have hshape := ask_all_shape g (initModels env live).1 q hne hwf
  have hkeys : keysOf ((((initModels env live).1).map
        (fun p => safe_ask g p.1 p.2 q)).map (fun p => (p.1, p.2.getD "")))
      = activeNames env := by
    rw [keysOf_strip, initModels_names]
  refine ⟨_, hshape.1, hkeys, (hshape.2 _ hshape.1).2.1, (hshape.2 _ hshape.1).2.2.1, ?_⟩
  intro r hr
  have hnotin_s : "_auto_summary" ∉ keysOf ((((initModels env live).1).map
      (fun p => safe_ask g p.1 p.2 q)).map (fun p => (p.1, p.2.getD ""))) := by
    rw [hkeys]; exact auto_summary_not_active env
  have hnotin_c : "_auto_consolidated" ∉ keysOf ((((initModels env live).1).map
      (fun p => safe_ask g p.1 p.2 q)).map (fun p => (p.1, p.2.getD ""))) := by
    rw [hkeys]; exact auto_consolidated_not_active env
  rcases ask_all_ok_cases g (initModels env live).1 q hne hwf _ hshape.1 with
    h | ⟨s, c, hsum, hcons, hlen, h⟩
  · have hrr : r = (((initModels env live).1).map
        (fun p => safe_ask g p.1 p.2 q)).map (fun p => (p.1, p.2.getD "")) := by
      rw [h] at hr
      exact (Except.ok.injEq _ _ ▸ hr).symm
    subst hrr
    constructor
    · intro ⟨hs, _⟩
      rw [lookupVal_none_of_not_mem _ _ hnotin_s] at hs
      cases hs
    · intro ⟨hlen2, ⟨s, hs⟩, ⟨c, hc⟩⟩
      have h2 := (hshape.2 _ hshape.1).2.2.2 s c hlen2 hs hc
      rw [h] at h2
      simp only [Except.ok.injEq] at h2
      have := congrArg List.length h2
      simp at this
  · have hrr : r = ((((initModels env live).1).map
        (fun p => safe_ask g p.1 p.2 q)).map (fun p => (p.1, p.2.getD "")))
        ++ [("_auto_summary", cap4000 s), ("_auto_consolidated", cap4000 c)] := by
      rw [h] at hr
      exact (Except.ok.injEq _ _ ▸ hr).symm
    subst hrr
    constructor
    · intro _
      exact ⟨hlen, ⟨s, hsum⟩, ⟨c, hcons⟩⟩
    · intro _
      constructor
      · unfold lookupVal
        rw [find?_append_of_none _ _ _ (find?_none_of_not_mem_keys _ _ hnotin_s)]
        rw [List.find?_cons_of_pos _ (by simp)]
        rfl
      · unfold lookupVal
        rw [find?_append_of_none _ _ _ (find?_none_of_not_mem_keys _ _ hnotin_c)]
        rw [List.find?_cons_of_neg _
          (by show ¬(("_auto_summary" : String) == "_auto_consolidated") = true
              decide)]
        rw [List.find?_cons_of_pos _ (by simp)]
        rfl

/-- Witness for C5 at a concrete two-provider success run. -/
theorem C5_auto_keys_iff_witness :
    ∃ res, allSome ((initModels envTwo live0).1.map
        (fun p => safe_ask gAllOk p.1 p.2 "Q")) = some res ∧
      keysOf res = activeNames envTwo ∧
      (∀ e, summarize_responses gAllOk (initModels envTwo live0).1
          (res.filter (fun p => !(pyStarts p.2 "Error:"))) none = Except.error e →
        ask_all gAllOk (initModels envTwo live0).1 "Q" = Except.ok res) ∧
      (∀ e, consolidate_responses gAllOk (initModels envTwo live0).1
          (res.filter (fun p => !(pyStarts p.2 "Error:"))) none = Except.error e →
        ask_all gAllOk (initModels envTwo live0).1 "Q" = Except.ok res) ∧
      (∀ r, ask_all gAllOk (initModels envTwo live0).1 "Q" = Except.ok r →
        (((lookupVal r "_auto_summary").isSome ∧
          (lookupVal r "_auto_consolidated").isSome) ↔
          (1 < (res.filter (fun p => !(pyStarts p.2 "Error:"))).length ∧
           (∃ s, summarize_responses gAllOk (initModels envTwo live0).1
               (res.filter (fun p => !(pyStarts p.2 "Error:"))) none
               = Except.ok (some s)) ∧
           (∃ c, consolidate_responses gAllOk (initModels envTwo live0).1
               (res.filter (fun p => !(pyStarts p.2 "Error:"))) none
               = Except.ok (some c))))) :=
  C5_auto_keys_iff envTwo live0 gAllOk "Q" (by decide)

theorem chooseModel_head (hd : String × ModelAdapter) (tl : List (String × ModelAdapter)) :
    chooseModel (hd :: tl) none = some hd.1 := rfl

theorem summarize_head (g : GenOracle) (hd : String × ModelAdapter)
    (tl : List (String × ModelAdapter)) (resp : List (String × String)) :
    summarize_responses g (hd :: tl) resp none
      = adapterResponse g hd.2 (summaryPrompt resp) := by
  unfold summarize_responses
  rw [chooseModel_head]
  dsimp only
  rw [List.find?_cons_of_pos _ (by simp)]

/-! ## Claim C6 -/

/-- C6 (amended): whenever consolidation triggers, the synthesis prompt
embeds each successful provider's labeled output, and both the summary and
the consolidated answer are generated by delegating to exactly one provider:
the *first iterated provider of the active map* — which, as
`C6_delegation_counterexample` shows, need not be among the successful
providers for that query. -/
theorem C6_delegate_is_first_active (env : ProviderEnv) (live : LiveOracle)
    (g : GenOracle) (q : String) (res r : List (String × String)) (v : String)
    (hres2 : allSome ((initModels env live).1.map (fun p => safe_ask g p.1 p.2 q))
      = some res)
    (hr : ask_all g (initModels env live).1 q = Except.ok r)
    (hv : lookupVal r "_auto_summary" = some v) :
    ∃ hd tl t, (initModels env live).1 = hd :: tl ∧
      chooseModel (initModels env live).1 none = some hd.1 ∧
      adapterResponse g hd.2
          (summaryPrompt (res.filter (fun p => !(pyStarts p.2 "Error:"))))
        = Except.ok (some t) ∧
      v = cap4000 t ∧
      (∀ p ∈ res.filter (fun p => !(pyStarts p.2 "Error:")),
        strContains (summaryPrompt (res.filter (fun p => !(pyStarts p.2 "Error:"))))
          ("=== " ++ pyUpper p.1 ++ " ===\n" ++ p.2) = true) := by
  cases hM : (initModels env live).1 with
  | nil =>
    rw [hM] at hr
    cases hr
  | cons hd tl =>
    have hne : (initModels env live).1 ≠ [] := by rw [hM]; simp
    have hwf := initModels_wf env live
    have hshape := ask_all_shape g (initModels env live).1 q hne hwf
    have hkeys : keysOf ((((initModels env live).1).map
          (fun p => safe_ask g p.1 p.2 q)).map (fun p => (p.1, p.2.getD "")))
        = activeNames env := by
      rw [keysOf_strip, initModels_names]
    have hnotin_s : "_auto_summary" ∉ keysOf ((((initModels env live).1).map
        (fun p => safe_ask g p.1 p.2 q)).map (fun p => (p.1, p.2.getD ""))) := by
      rw [hkeys]; exact auto_summary_not_active env
    have hresEq : res = (((initModels env live).1).map
        (fun p => safe_ask g p.1 p.2 q)).map (fun p => (p.1, p.2.getD "")) := by
      rw [hshape.1] at hres2
      exact (Option.some.injEq _ _ ▸ hres2).symm
    rcases ask_all_ok_cases g (initModels env live).1 q hne hwf _ hshape.1 with
      h | ⟨s, c, hsum, hcons, hlen, h⟩
    · have hrr : r = (((initModels env live).1).map
          (fun p => safe_ask g p.1 p.2 q)).map (fun p => (p.1, p.2.getD "")) := by
        rw [h] at hr
        exact (Except.ok.injEq _ _ ▸ hr).symm
      subst hrr
      rw [lookupVal_none_of_not_mem _ _ hnotin_s] at hv
      cases hv
    · have hrr : r = ((((initModels env live).1).map
          (fun p => safe_ask g p.1 p.2 q)).map (fun p => (p.1, p.2.getD "")))
          ++ [("_auto_summary", cap4000 s), ("_auto_consolidated", cap4000 c)] := by
        rw [h] at hr
        exact (Except.ok.injEq _ _ ▸ hr).symm
      subst hrr
      have hv2 : v = cap4000 s := by
        unfold lookupVal at hv
        rw [find?_append_of_none _ _ _ (find?_none_of_not_mem_keys _ _ hnotin_s)] at hv
        rw [List.find?_cons_of_pos _ (by simp)] at hv
        simp only [Option.map_some', Option.some.injEq] at hv
        exact hv.symm
      rw [← hresEq] at hsum
      rw [hM] at hsum
      rw [summarize_head] at hsum
      refine ⟨hd, tl, s, rfl, chooseModel_head hd tl, hsum, hv2, ?_⟩
      intro p hp
      exact summaryPrompt_contains _ p
        (List.mem_filter.mpr ⟨hp, (List.mem_filter.mp hp).2⟩)

/-- Witness for C6 at a concrete two-provider success run: the delegate is
the first active provider (chatgpt) and `_auto_summary` carries its output. -/
theorem C6_delegate_is_first_active_witness :
    ∃ hd tl t, (initModels envTwo live0).1 = hd :: tl ∧
      chooseModel (initModels envTwo live0).1 none = some hd.1 ∧
      adapterResponse gAllOk hd.2
          (summaryPrompt ([("chatgpt", "A"), ("claude", "B")].filter
            (fun p => !(pyStarts p.2 "Error:"))))
        = Except.ok (some t) ∧
      "A" = cap4000 t ∧
      (∀ p ∈ [("chatgpt", "A"), ("claude", "B")].filter
          (fun p => !(pyStarts p.2 "Error:")),
        strContains (summaryPrompt ([("chatgpt", "A"), ("claude", "B")].filter
            (fun p => !(pyStarts p.2 "Error:"))))
          ("=== " ++ pyUpper p.1 ++ " ===\n" ++ p.2) = true) :=
  C6_delegate_is_first_active envTwo live0 gAllOk "Q"
    [("chatgpt", "A"), ("claude", "B")]
    [("chatgpt", "A"), ("claude", "B"), ("_auto_summary", "A"), ("_auto_consolidated", "A")]
    "A" (by rfl) (by rfl) (by rfl)

/-- Counterexample to C6 as stated: with chatgpt failing on the user
question but claude and gemini succeeding, consolidation triggers and both
`_auto_*` keys are produced — yet the delegate is `chatgpt`, the first
*active* provider, whose own per-query entry is an error, i.e. a provider
that is *not* among the successful ones for that query. -/
theorem C6_delegation_counterexample :
    ask_all gFirstFails (initModels envThree live0).1 "Q"
      = Except.ok [("chatgpt", "Error: boom"), ("claude", "A1"), ("gemini", "A2"),
                   ("_auto_summary", "SYNTH"), ("_auto_consolidated", "SYNTH")] ∧
    chooseModel (initModels envThree live0).1 none = some "chatgpt" ∧
    pyStarts "Error: boom" "Error:" = true :=
  ⟨by rfl, by rfl, by decide⟩

/-! ## Claim C10 -/

/-- C10: success is distinguished from failure solely by the literal
`Error:` prefix of the result string: an entry whose text starts with
`Error:` (whether a caught exception or a genuine answer that happens to
start that way) contributes nothing to the synthesis prompt, is excluded
from the successful set, and cannot help reach the `> 1` consolidation
trigger — with at most one non-`Error:` entry, `ask_all` returns the bare
per-provider map. -/
theorem C10_error_prefix_is_success_test :
    (∀ (n t : String) (rest : List (String × String)), pyStarts t "Error:" = true →
       format_responses_for_summary ((n, t) :: rest)
         = format_responses_for_summary rest) ∧
    (∀ (res : List (String × String)) (n t : String), (n, t) ∈ res →
       pyStarts t "Error:" = true →
       (n, t) ∉ res.filter (fun p => !(pyStarts p.2 "Error:"))) ∧
    (∀ (env : ProviderEnv) (live : LiveOracle) (g : GenOracle) (q : String)
       (res : List (String × String)),
       activeNames env ≠ [] →
       allSome ((initModels env live).1.map (fun p => safe_ask g p.1 p.2 q)) = some res →
       (res.filter (fun p => !(pyStarts p.2 "Error:"))).length ≤ 1 →
       ask_all g (initModels env live).1 q = Except.ok res) := by
  refine ⟨?_, ?_, ?_⟩
  · intro n t rest h
    unfold format_responses_for_summary
    rw [List.filter_cons_of_neg (by simp [h])]
  · intro res n t _ h hmem
    have := (List.mem_filter.mp hmem).2
    simp [h] at this
  · intro env live g q res hactive hres hlen
    have hne : (initModels env live).1 ≠ [] := fun h =>
      hactive ((initModels_empty_iff env live).mp h)
    have hwf := initModels_wf env live
    exact ((ask_all_shape g (initModels env live).1 q hne hwf).2 res hres).1 hlen

/-- Witness for C10: a genuine (non-raising) response text beginning with
`Error:` is dropped from the synthesis prompt. -/
theorem C10_error_prefix_is_success_test_witness :
    format_responses_for_summary [("claude", "Error: is what I discuss")]
      = format_responses_for_summary [] :=
  C10_error_prefix_is_success_test.1 "claude" "Error: is what I discuss" [] (by decide)
